import Mathlib

/-!
# wev: filter engine, key decoding and offer tracking

A shallow embedding of `src/wev.c`.  C strings are Lean strings whose characters
stand for the bytes of the C string; pointers to protocol objects are optional
values (`none` is `NULL`); unsigned 32-bit arithmetic is `Nat` arithmetic taken
modulo `2 ^ 32`.  Everything a handler does besides updating `wev_state` is
returned explicitly: the text it writes to standard output and the ordered list
of calls it makes into the transport and keymap libraries.
-/

namespace Wev

/-! ## Text helpers -/

/-- Byte-wise comparison of two C strings.  The C standard fixes only the sign of
the result, so the result here is `-1`, `0` or `1`: a string that ends first
is smaller, and otherwise the first pair of differing bytes decides. -/
def strcmp_chars : List Char → List Char → Int
  | [], [] => 0
  | [], _ :: _ => -1
  | _ :: _, [] => 1
  | a :: as, b :: bs =>
    if a = b then strcmp_chars as bs else if a.toNat < b.toNat then -1 else 1

/-- The libc `strcmp` on C strings. -/
def strcmp (a b : String) : Int := strcmp_chars a.toList b.toList

/-- Left padding of `s` with the character `c` up to `width` characters. -/
def pad_left (c : Char) (width : Nat) (s : String) : String :=
  String.mk (List.replicate (width - s.length) c) ++ s

/-- Right padding of `s` with spaces up to `width` characters. -/
def pad_right (width : Nat) (s : String) : String :=
  s ++ String.mk (List.replicate (width - s.length) ' ')

/-- The conversion `%u` of a 32-bit unsigned value. -/
def fmt_u (v : Nat) : String := toString (v % 2 ^ 32)

/-- The conversion `%d` of a 32-bit value: the bits are read as a signed int. -/
def fmt_d (v : Nat) : String :=
  if v % 2 ^ 32 < 2 ^ 31 then toString (v % 2 ^ 32)
  else "-" ++ toString (2 ^ 32 - v % 2 ^ 32)

/-- The conversion `%d` of a signed 32-bit value. -/
def fmt_i (v : Int) : String := toString v

/-- The conversion `%02u`. -/
def fmt_02u (v : Nat) : String := pad_left '0' 2 (fmt_u v)

/-- The conversion `%16s`. -/
def fmt_16s (s : String) : String := pad_left ' ' 16 s

/-- The conversion `%-12s`. -/
def fmt_m12s (s : String) : String := pad_right 12 s

/-- The conversion `%08X`. -/
def fmt_08X (v : Nat) : String :=
  pad_left '0' 8 (String.mk ((Nat.toDigits 16 (v % 2 ^ 32)).map Char.toUpper))

/-- The conversion `%s` of a possibly null string, as glibc prints it. -/
def fmt_s (s : Option String) : String := s.getD "(null)"

/-- The macro `SPACER`: twenty-two spaces. -/
def SPACER : String := "                      "

/-! ## Data model -/

/-- The struct `wev_filter`: `event` is `none` for a null event pointer. -/
structure wev_filter where
  interface : String
  event : Option String
  deriving DecidableEq, Repr

/-- The struct `wev_options`.  Each `wl_list` is the list of its elements in
iteration order, the most recently inserted element first. -/
structure wev_options where
  print_globals : Bool := false
  dump_map : Option String := none
  filters : List wev_filter := []
  inverse_filters : List wev_filter := []
  deriving DecidableEq, Repr

/-- A protocol object as the handlers see it: `wl_proxy_get_id` and
`wl_proxy_get_class`. -/
structure wl_proxy where
  id : Nat
  cls : String
  deriving DecidableEq, Repr

/-- The struct `wev_state`, with `K` the type of compiled keymaps and `S` the type
of live keyboard states of the keymap library.  Of the window objects only
the surface, which `xdg_surface_configure` reads, is kept. -/
structure wev_state (K S : Type) where
  opts : wev_options := {}
  closed : Bool := false
  compositor : Option wl_proxy := none
  seat : Option wl_proxy := none
  shm : Option wl_proxy := none
  wm_base : Option wl_proxy := none
  data_device_manager : Option wl_proxy := none
  width : Int := 0
  height : Int := 0
  xkb_state : Option S := none
  xkb_keymap : Option K := none
  selection : Option wl_proxy := none
  dnd : Option wl_proxy := none
  surface : Option wl_proxy := none

/-- The state `main` starts from: `struct wev_state state = { 0 }` followed by the
initialisation of the two filter lists. -/
def wev_state.init (K S : Type) : wev_state K S := {}

/-! ## Filter engine and `proxy_log` -/

/-- The condition tested on each element by both loops of `proxy_log`. -/
def filter_hit (filter : wev_filter) (cls event : String) : Bool :=
  strcmp filter.interface cls == 0 &&
    (match filter.event with
     | none => true
     | some e => strcmp e event == 0)

/-- One `wl_list_for_each` loop of `proxy_log`: `found` starts false and is set on
every element that hits; the loop never leaves early. -/
def scan_filters (list : List wev_filter) (cls event : String) : Bool :=
  list.foldl (fun found filter => if filter_hit filter cls event then true else found) false

/-- What `proxy_log` gives back: its return value `n` and the text it wrote. -/
structure Logged where
  n : Nat
  out : String
  deriving DecidableEq, Repr

/-- The header printed by `printf("[%02u:%16s] %s%s", ...)`. -/
def log_header (proxy : wl_proxy) (event fmt : String) : String :=
  "[" ++ fmt_02u proxy.id ++ ":" ++ fmt_16s proxy.cls ++ "] " ++ event ++
    (if strcmp fmt "\n" != 0 then ": " else "")

/-- The function `proxy_log`.  `fmt` is the format string and `body` the text
`vprintf(fmt, ap)` writes for the caller's arguments; both `printf` calls
return the number of bytes they wrote. -/
def proxy_log (opts : wev_options) (proxy : wl_proxy) (event fmt body : String) : Logged :=
  let cls := proxy.cls
  if !opts.filters.isEmpty && !scan_filters opts.filters cls event then
    ⟨0, ""⟩
  else if !opts.inverse_filters.isEmpty && scan_filters opts.inverse_filters cls event then
    ⟨0, ""⟩
  else
    let header := log_header proxy event fmt
    ⟨header.length + body.length, header ++ body⟩

/-! ## `add_filter` -/

/-- One call of `strtok` with the single delimiter `delim` on the text still to
scan: leading delimiters are skipped; `none` when nothing is left; otherwise
the token and the text after the delimiter that ended it. -/
def strtok (s : List Char) (delim : Char) : Option (List Char × List Char) :=
  let s1 := s.dropWhile (fun c => c == delim)
  if s1.isEmpty then none
  else some (s1.takeWhile (fun c => c != delim), (s1.dropWhile (fun c => c != delim)).drop 1)

/-- The function `add_filter`: the first token is the interface, the second, when
there is one, the event; the new rule goes to the front of the list
(`wl_list_insert` at the head).  `none` when the argument has no first token:
the code then passes a null pointer to `strdup`. -/
def add_filter (list : List wev_filter) (filter : String) : Option (List wev_filter) :=
  match strtok filter.toList ':' with
  | none => none
  | some (iface, rest) =>
    let event := (strtok rest ':').map (fun t => String.mk t.1)
    some ({ interface := String.mk iface, event := event } :: list)

/-! ## The libraries behind the handlers -/

/-- The functions of the keymap library (libxkbcommon) and of libc that the handlers
call and whose results they use.  A state or keymap argument is the pointer
the handler passes, `none` for a null pointer.  `xkb_state_update_mask` changes
the state object in place: it maps the object before the call to the object
after it.  `fixed_f` is the text `%f` prints for `wl_fixed_to_double` of a
24.8 fixed-point value. -/
structure Extern (K S : Type) where
  xkb_keymap_new_from_string : String → Option K
  xkb_state_new : Option K → Option S
  xkb_state_update_mask : S → Nat → Nat → Nat → Nat → Nat → Nat → S
  xkb_state_key_get_one_sym : Option S → Nat → Nat
  xkb_state_key_get_utf8 : Option S → Nat → String
  xkb_keysym_get_name : Nat → String
  xkb_keymap_mod_get_name : Option K → Nat → Option String
  fixed_f : Int → String

/-- A call a handler makes into the keymap library, the transport or libc, with the
arguments it passes. -/
inductive Call (K S : Type) where
  | xkb_keymap_new_from_string (bytes : String)
  | xkb_state_new (keymap : Option K)
  | xkb_keymap_unref (keymap : Option K)
  | xkb_state_unref (state : Option S)
  | xkb_state_update_mask (state : Option S)
      (depressed latched locked depressed_layout latched_layout locked_layout : Nat)
  | xkb_state_key_get_one_sym (state : Option S) (key : Nat)
  | xkb_state_key_get_utf8 (state : Option S) (key : Nat)
  | xkb_keysym_get_name (sym : Nat)
  | xkb_keymap_mod_get_name (keymap : Option K) (idx : Nat)
  | wl_data_offer_destroy (offer : Option wl_proxy)
  | wl_data_offer_set_actions (offer : wl_proxy) (dnd_actions preferred_action : Nat)
  | wl_data_offer_accept (offer : wl_proxy) (serial : Nat) (mime_type : String)
  | wl_data_offer_add_listener (offer : wl_proxy)
  | wl_seat_get_pointer (seat : wl_proxy)
  | wl_seat_get_keyboard (seat : wl_proxy)
  | wl_seat_get_touch (seat : wl_proxy)
  | xdg_surface_ack_configure (xdg_surface : wl_proxy) (serial : Nat)
  | xdg_wm_base_pong (wm_base : wl_proxy) (serial : Nat)
  | wl_registry_bind (name : Nat) (interface : String) (version : Nat)
  | wl_buffer_destroy (buffer : wl_proxy)
  | create_buffer (width height : Int)
  | wl_surface_attach (surface : Option wl_proxy)
  | wl_surface_damage_buffer (surface : Option wl_proxy)
  | wl_surface_commit (surface : Option wl_proxy)
  | dump_file (path : String) (bytes : String)
  | munmap (size : Nat)
  | close (fd : Int)
  | stderr (text : String)
  deriving DecidableEq

/-- What one handler invocation does: the state it leaves, the text it writes to
standard output and the calls it makes, in order. -/
structure Step (K S : Type) where
  state : wev_state K S
  out : String
  calls : List (Call K S)

/-! ## Protocol constants -/

/-- The keymap format tag of the XKB v1 text format. -/
def WL_KEYBOARD_KEYMAP_FORMAT_XKB_V1 : Nat := 1
/-- The keymap format tag for "no keymap". -/
def WL_KEYBOARD_KEYMAP_FORMAT_NO_KEYMAP : Nat := 0
/-- The key state "released". -/
def WL_KEYBOARD_KEY_STATE_RELEASED : Nat := 0
/-- The key state "pressed". -/
def WL_KEYBOARD_KEY_STATE_PRESSED : Nat := 1
/-- The seat capability bit of the pointer. -/
def WL_SEAT_CAPABILITY_POINTER : Nat := 1
/-- The seat capability bit of the keyboard. -/
def WL_SEAT_CAPABILITY_KEYBOARD : Nat := 2
/-- The seat capability bit of touch. -/
def WL_SEAT_CAPABILITY_TOUCH : Nat := 4
/-- The drag action "none". -/
def WL_DATA_DEVICE_MANAGER_DND_ACTION_NONE : Nat := 0
/-- The drag action "copy". -/
def WL_DATA_DEVICE_MANAGER_DND_ACTION_COPY : Nat := 1
/-- The drag action "move". -/
def WL_DATA_DEVICE_MANAGER_DND_ACTION_MOVE : Nat := 2
/-- The drag action "ask". -/
def WL_DATA_DEVICE_MANAGER_DND_ACTION_ASK : Nat := 4

/-- The button code `BTN_LEFT`. -/
def BTN_LEFT : Nat := 0x110
/-- The button code `BTN_RIGHT`. -/
def BTN_RIGHT : Nat := 0x111
/-- The button code `BTN_MIDDLE`. -/
def BTN_MIDDLE : Nat := 0x112
/-- The button code `BTN_SIDE`. -/
def BTN_SIDE : Nat := 0x113
/-- The button code `BTN_EXTRA`. -/
def BTN_EXTRA : Nat := 0x114
/-- The button code `BTN_FORWARD`. -/
def BTN_FORWARD : Nat := 0x115
/-- The button code `BTN_BACK`. -/
def BTN_BACK : Nat := 0x116
/-- The button code `BTN_TASK`. -/
def BTN_TASK : Nat := 0x117
/-- The pointer button state "released". -/
def WL_POINTER_BUTTON_STATE_RELEASED : Nat := 0
/-- The pointer button state "pressed". -/
def WL_POINTER_BUTTON_STATE_PRESSED : Nat := 1
/-- The vertical scroll axis. -/
def WL_POINTER_AXIS_VERTICAL_SCROLL : Nat := 0
/-- The horizontal scroll axis. -/
def WL_POINTER_AXIS_HORIZONTAL_SCROLL : Nat := 1
/-- The axis source "wheel". -/
def WL_POINTER_AXIS_SOURCE_WHEEL : Nat := 0
/-- The axis source "finger". -/
def WL_POINTER_AXIS_SOURCE_FINGER : Nat := 1
/-- The axis source "continuous". -/
def WL_POINTER_AXIS_SOURCE_CONTINUOUS : Nat := 2
/-- The axis source "wheel tilt". -/
def WL_POINTER_AXIS_SOURCE_WHEEL_TILT : Nat := 3
/-- The toplevel state "maximized". -/
def XDG_TOPLEVEL_STATE_MAXIMIZED : Nat := 1
/-- The toplevel state "fullscreen". -/
def XDG_TOPLEVEL_STATE_FULLSCREEN : Nat := 2
/-- The toplevel state "resizing". -/
def XDG_TOPLEVEL_STATE_RESIZING : Nat := 3
/-- The toplevel state "activated". -/
def XDG_TOPLEVEL_STATE_ACTIVATED : Nat := 4
/-- The toplevel state "tiled left". -/
def XDG_TOPLEVEL_STATE_TILED_LEFT : Nat := 5
/-- The toplevel state "tiled right". -/
def XDG_TOPLEVEL_STATE_TILED_RIGHT : Nat := 6
/-- The toplevel state "tiled top". -/
def XDG_TOPLEVEL_STATE_TILED_TOP : Nat := 7
/-- The toplevel state "tiled bottom". -/
def XDG_TOPLEVEL_STATE_TILED_BOTTOM : Nat := 8

section Handlers

variable {K S : Type}

/-! ## Keyboard handlers -/

/-- The function `keymap_format_str`. -/
def keymap_format_str (format : Nat) : String :=
  if format = WL_KEYBOARD_KEYMAP_FORMAT_NO_KEYMAP then "none"
  else if format = WL_KEYBOARD_KEYMAP_FORMAT_XKB_V1 then "xkb v1"
  else "unknown"

/-- The function `key_state_str`. -/
def key_state_str (state : Nat) : String :=
  if state = WL_KEYBOARD_KEY_STATE_RELEASED then "released"
  else if state = WL_KEYBOARD_KEY_STATE_PRESSED then "pressed"
  else "unknown"

/-- The handler `wl_keyboard_keymap`.  `map_shm` is what `mmap` gives: `none` for
`MAP_FAILED`, otherwise the `size` mapped bytes.  The message written to the
error stream is recorded by its fixed part, without the `strerror` text. -/
def wl_keyboard_keymap (x : Extern K S) (state : wev_state K S) (wl_keyboard : wl_proxy)
    (format : Nat) (fd : Int) (size : Nat) (map_shm : Option String) : Step K S :=
  let log := proxy_log state.opts wl_keyboard "keymap" "format: %d (%s), size: %d\n"
    ("format: " ++ fmt_d format ++ " (" ++ keymap_format_str format ++ "), size: " ++
      fmt_d size ++ "\n")
  match map_shm with
  | none => ⟨state, log.out, [Call.close fd, Call.stderr "Unable to mmap keymap: "]⟩
  | some bytes =>
    let dump : List (Call K S) :=
      match state.opts.dump_map with
      | some path => [Call.dump_file path bytes]
      | none => []
    if format ≠ WL_KEYBOARD_KEYMAP_FORMAT_XKB_V1 then
      ⟨state, log.out, dump ++ [Call.munmap size, Call.close fd]⟩
    else
      let keymap := x.xkb_keymap_new_from_string bytes
      let xkb_state := x.xkb_state_new keymap
      ⟨{ state with xkb_keymap := keymap, xkb_state := xkb_state }, log.out,
        dump ++ [Call.xkb_keymap_new_from_string bytes, Call.munmap size, Call.close fd,
          Call.xkb_state_new keymap, Call.xkb_keymap_unref state.xkb_keymap,
          Call.xkb_state_unref state.xkb_state]⟩

/-- The text of `printf(SPACER "sym: %-12s (%d), ", buf, sym)` for the symbol the
state gives at `code`. -/
def sym_detail (x : Extern K S) (xkb_state : Option S) (code : Nat) : String :=
  let sym := x.xkb_state_key_get_one_sym xkb_state code
  SPACER ++ "sym: " ++ fmt_m12s (x.xkb_keysym_get_name sym) ++ " (" ++ fmt_d sym ++ "), "

/-- The text of `printf("utf8: '%s'\n", buf)` for the UTF-8 text `text`. -/
def utf8_detail (text : String) : String := "utf8: \x27" ++ text ++ "\x27\n"

/-- The detail text printed for one key: the symbol looked up at `symcode` and the
UTF-8 text looked up at `utf8code`. -/
def key_detail (x : Extern K S) (xkb_state : Option S) (symcode utf8code : Nat) : String :=
  sym_detail x xkb_state symcode ++ utf8_detail (x.xkb_state_key_get_utf8 xkb_state utf8code)

/-- The library calls behind `key_detail`, in order. -/
def key_detail_calls (x : Extern K S) (xkb_state : Option S) (symcode utf8code : Nat) :
    List (Call K S) :=
  [Call.xkb_state_key_get_one_sym xkb_state symcode,
    Call.xkb_keysym_get_name (x.xkb_state_key_get_one_sym xkb_state symcode),
    Call.xkb_state_key_get_utf8 xkb_state utf8code]

/-- The `proxy_log` call of `wl_keyboard_enter`. -/
def wl_keyboard_enter_log (opts : wev_options) (wl_keyboard : wl_proxy) (serial : Nat)
    (surface : wl_proxy) : Logged :=
  proxy_log opts wl_keyboard "enter" "serial: %d; surface: %d\n"
    ("serial: " ++ fmt_d serial ++ "; surface: " ++ fmt_d surface.id ++ "\n")

/-- The text the loop of `wl_keyboard_enter` prints: for each held key `*key`, both
lookups are made at `*key + 8`. -/
def enter_detail (x : Extern K S) (xkb_state : Option S) (keys : List Nat) : String :=
  String.join (keys.map (fun key =>
    key_detail x xkb_state ((key + 8) % 2 ^ 32) ((key + 8) % 2 ^ 32)))

/-- The library calls of the loop of `wl_keyboard_enter`. -/
def enter_detail_calls (x : Extern K S) (xkb_state : Option S) (keys : List Nat) :
    List (Call K S) :=
  (keys.map (fun key =>
    key_detail_calls x xkb_state ((key + 8) % 2 ^ 32) ((key + 8) % 2 ^ 32))).flatten

/-- The handler `wl_keyboard_enter`; `keys` holds the elements of the `wl_array`. -/
def wl_keyboard_enter (x : Extern K S) (state : wev_state K S) (wl_keyboard : wl_proxy)
    (serial : Nat) (surface : wl_proxy) (keys : List Nat) : Step K S :=
  let log := wl_keyboard_enter_log state.opts wl_keyboard serial surface
  if log.n ≠ 0 then
    ⟨state, log.out ++ enter_detail x state.xkb_state keys,
      enter_detail_calls x state.xkb_state keys⟩
  else
    ⟨state, log.out, []⟩

/-- The `proxy_log` call of `wl_keyboard_key`. -/
def wl_keyboard_key_log (opts : wev_options) (wl_keyboard : wl_proxy)
    (serial time key state : Nat) : Logged :=
  proxy_log opts wl_keyboard "key" "serial: %d; time: %d; key: %d; state: %d (%s)\n"
    ("serial: " ++ fmt_d serial ++ "; time: " ++ fmt_d time ++ "; key: " ++ fmt_d key ++
      "; state: " ++ fmt_d state ++ " (" ++ key_state_str state ++ ")\n")

/-- The handler `wl_keyboard_key`.  The symbol lookup is made before the test of
`n`, at `key + 8`; the UTF-8 lookup is made inside it, at `keycode`. -/
def wl_keyboard_key (x : Extern K S) (wev_state : wev_state K S) (wl_keyboard : wl_proxy)
    (serial time key state : Nat) : Step K S :=
  let log := wl_keyboard_key_log wev_state.opts wl_keyboard serial time key state
  let keycode := if state = WL_KEYBOARD_KEY_STATE_PRESSED then (key + 8) % 2 ^ 32 else 0
  if log.n ≠ 0 then
    ⟨wev_state, log.out ++ key_detail x wev_state.xkb_state ((key + 8) % 2 ^ 32) keycode,
      key_detail_calls x wev_state.xkb_state ((key + 8) % 2 ^ 32) keycode⟩
  else
    ⟨wev_state, log.out,
      [Call.xkb_state_key_get_one_sym wev_state.xkb_state ((key + 8) % 2 ^ 32)]⟩

/-- The bit positions `print_modifiers` prints a name for: those `i` below 32 with
`(mods >> i) & 1` set. -/
def modifier_bits (mods : Nat) : List Nat :=
  (List.range 32).filter (fun i => (mods >>> i) &&& 1 != 0)

/-- The function `print_modifiers`: its text. -/
def print_modifiers (x : Extern K S) (state : wev_state K S) (mods : Nat) : String :=
  (if mods ≠ 0 then ": " else "") ++
    String.join ((modifier_bits mods).map
      (fun i => fmt_s (x.xkb_keymap_mod_get_name state.xkb_keymap i) ++ " ")) ++ "\n"

/-- The function `print_modifiers`: its library calls. -/
def print_modifiers_calls (state : wev_state K S) (mods : Nat) : List (Call K S) :=
  (modifier_bits mods).map (fun i => Call.xkb_keymap_mod_get_name state.xkb_keymap i)

/-- The `proxy_log` call of `wl_keyboard_modifiers`.  The format has two `%d`
conversions and the call passes `group` alone: the first conversion prints
`group`, and `stray` is the value the second one picks up. -/
def wl_keyboard_modifiers_log (opts : wev_options) (wl_keyboard : wl_proxy)
    (group stray : Nat) : Logged :=
  proxy_log opts wl_keyboard "modifiers" "serial: %d; group: %d\n"
    ("serial: " ++ fmt_d group ++ "; group: " ++ fmt_d stray ++ "\n")

/-- The three detail lines of `wl_keyboard_modifiers`. -/
def modifiers_detail (x : Extern K S) (state : wev_state K S)
    (mods_depressed mods_latched mods_locked : Nat) : String :=
  SPACER ++ "depressed: " ++ fmt_08X mods_depressed ++ print_modifiers x state mods_depressed ++
    SPACER ++ "latched: " ++ fmt_08X mods_latched ++ print_modifiers x state mods_latched ++
    SPACER ++ "locked: " ++ fmt_08X mods_locked ++ print_modifiers x state mods_locked

/-- The handler `wl_keyboard_modifiers`.  The call of `xkb_state_update_mask` comes
after the test of `n` and outside it. -/
def wl_keyboard_modifiers (x : Extern K S) (state : wev_state K S) (wl_keyboard : wl_proxy)
    (serial mods_depressed mods_latched mods_locked group : Nat) (stray : Nat) : Step K S :=
  let _ := serial
  let log := wl_keyboard_modifiers_log state.opts wl_keyboard group stray
  let update : List (Call K S) :=
    [Call.xkb_state_update_mask state.xkb_state mods_depressed mods_latched mods_locked 0 0 group]
  let updated : Option S := state.xkb_state.map
    (fun s => x.xkb_state_update_mask s mods_depressed mods_latched mods_locked 0 0 group)
  let state1 : wev_state K S := { state with xkb_state := updated }
  if log.n ≠ 0 then
    ⟨state1, log.out ++ modifiers_detail x state mods_depressed mods_latched mods_locked,
      print_modifiers_calls state mods_depressed ++ print_modifiers_calls state mods_latched ++
        print_modifiers_calls state mods_locked ++ update⟩
  else
    ⟨state1, log.out, update⟩

/-! ## Seat handlers -/

/-- The handler `wl_seat_capabilities`.  Of the calls it makes, the three
`wl_seat_get_*` requests are recorded; the listener registration after each
is not. -/
def wl_seat_capabilities (state : wev_state K S) (wl_seat : wl_proxy) (capabilities : Nat) :
    Step K S :=
  let log := proxy_log state.opts wl_seat "capabilities" "" ""
  let shown (text : String) : String := if log.n ≠ 0 then text else ""
  let part (bit : Nat) (text : String) (call : Call K S) : String × List (Call K S) :=
    if capabilities &&& bit ≠ 0 then (shown text, [call]) else ("", [])
  let p := part WL_SEAT_CAPABILITY_POINTER "pointer " (Call.wl_seat_get_pointer wl_seat)
  let k := part WL_SEAT_CAPABILITY_KEYBOARD "keyboard " (Call.wl_seat_get_keyboard wl_seat)
  let t := part WL_SEAT_CAPABILITY_TOUCH "touch " (Call.wl_seat_get_touch wl_seat)
  ⟨state,
    log.out ++ (if capabilities = 0 ∧ log.n ≠ 0 then " none" else "") ++ p.1 ++ k.1 ++ t.1 ++
      shown "\n",
    p.2 ++ k.2 ++ t.2⟩

/-- The handler `wl_seat_name`. -/
def wl_seat_name (state : wev_state K S) (seat : wl_proxy) (name : String) : Step K S :=
  ⟨state, (proxy_log state.opts seat "name" "%s\n" (name ++ "\n")).out, []⟩

/-! ## Data-device handlers -/

/-- The handler `wl_data_device_data_offer`. -/
def wl_data_device_data_offer (state : wev_state K S) (device : wl_proxy) (id : wl_proxy) :
    Step K S :=
  ⟨state, (proxy_log state.opts device "data_offer" "id: %u\n" ("id: " ++ fmt_u id.id ++ "\n")).out,
    [Call.wl_data_offer_add_listener id]⟩

/-- The handler `wl_data_device_motion`. -/
def wl_data_device_motion (x : Extern K S) (state : wev_state K S) (device : wl_proxy)
    (serial : Nat) (px py : Int) : Step K S :=
  ⟨state, (proxy_log state.opts device "motion" "serial: %d; x, y: %f, %f\n"
    ("serial: " ++ fmt_d serial ++ "; x, y: " ++ x.fixed_f px ++ ", " ++ x.fixed_f py ++ "\n")).out,
    []⟩

/-- The handler `wl_data_device_enter`.  The handler reads the offer's id and sends
requests on it, so the offer is a live object. -/
def wl_data_device_enter (x : Extern K S) (state : wev_state K S) (device : wl_proxy)
    (serial : Nat) (surface : wl_proxy) (px py : Int) (id : wl_proxy) : Step K S :=
  let log := proxy_log state.opts device "enter"
    "serial: %d; surface: %d; x, y: %f, %f; id: %u\n"
    ("serial: " ++ fmt_d serial ++ "; surface: " ++ fmt_d surface.id ++ "; x, y: " ++
      x.fixed_f px ++ ", " ++ x.fixed_f py ++ "; id: " ++ fmt_u id.id ++ "\n")
  ⟨{ state with dnd := some id }, log.out,
    [Call.wl_data_offer_set_actions id
        (WL_DATA_DEVICE_MANAGER_DND_ACTION_COPY ||| WL_DATA_DEVICE_MANAGER_DND_ACTION_MOVE |||
          WL_DATA_DEVICE_MANAGER_DND_ACTION_ASK)
        WL_DATA_DEVICE_MANAGER_DND_ACTION_COPY,
      Call.wl_data_offer_accept id serial "text/plain"]⟩

/-- The handler `wl_data_device_leave`. -/
def wl_data_device_leave (state : wev_state K S) (device : wl_proxy) : Step K S :=
  let log := proxy_log state.opts device "leave" "\n" "\n"
  match state.dnd with
  | some offer => ⟨{ state with dnd := none }, log.out, [Call.wl_data_offer_destroy (some offer)]⟩
  | none => ⟨state, log.out, []⟩

/-- The handler `wl_data_device_drop`: the destroy call is made on whatever the
slot holds, a null pointer included. -/
def wl_data_device_drop (state : wev_state K S) (device : wl_proxy) : Step K S :=
  let log := proxy_log state.opts device "drop" "\n" "\n"
  ⟨{ state with dnd := none }, log.out, [Call.wl_data_offer_destroy state.dnd]⟩

/-- The handler `wl_data_device_selection`; `id` is `none` for a null offer. -/
def wl_data_device_selection (state : wev_state K S) (device : wl_proxy)
    (id : Option wl_proxy) : Step K S :=
  let log :=
    match id with
    | none => proxy_log state.opts device "selection" "(cleared)\n" "(cleared)\n"
    | some offer => proxy_log state.opts device "selection" "id: %u\n"
        ("id: " ++ fmt_u offer.id ++ "\n")
  let destroy : List (Call K S) :=
    match state.selection with
    | some old => [Call.wl_data_offer_destroy (some old)]
    | none => []
  ⟨{ state with selection := id }, log.out, destroy⟩

/-! ## Pointer handlers -/

/-- The function `pointer_button_str`. -/
def pointer_button_str (button : Nat) : String :=
  if button = BTN_LEFT then "left"
  else if button = BTN_RIGHT then "right"
  else if button = BTN_MIDDLE then "middle"
  else if button = BTN_SIDE then "side"
  else if button = BTN_EXTRA then "extra"
  else if button = BTN_FORWARD then "forward"
  else if button = BTN_BACK then "back"
  else if button = BTN_TASK then "task"
  else "unknown"

/-- The function `pointer_state_str`. -/
def pointer_state_str (state : Nat) : String :=
  if state = WL_POINTER_BUTTON_STATE_RELEASED then "released"
  else if state = WL_POINTER_BUTTON_STATE_PRESSED then "pressed"
  else "unknown state"

/-- The function `pointer_axis_str`. -/
def pointer_axis_str (axis : Nat) : String :=
  if axis = WL_POINTER_AXIS_VERTICAL_SCROLL then "vertical"
  else if axis = WL_POINTER_AXIS_HORIZONTAL_SCROLL then "horizontal"
  else "unknown"

/-- The function `pointer_axis_source_str`. -/
def pointer_axis_source_str (axis_source : Nat) : String :=
  if axis_source = WL_POINTER_AXIS_SOURCE_WHEEL then "wheel"
  else if axis_source = WL_POINTER_AXIS_SOURCE_FINGER then "finger"
  else if axis_source = WL_POINTER_AXIS_SOURCE_CONTINUOUS then "continuous"
  else if axis_source = WL_POINTER_AXIS_SOURCE_WHEEL_TILT then "wheel tilt"
  else "unknown"

/-- The handler `wl_pointer_enter`. -/
def wl_pointer_enter (x : Extern K S) (state : wev_state K S) (wl_pointer : wl_proxy)
    (serial : Nat) (surface : wl_proxy) (surface_x surface_y : Int) : Step K S :=
  ⟨state, (proxy_log state.opts wl_pointer "enter" "serial: %d; surface: %d, x, y: %f, %f\n"
    ("serial: " ++ fmt_d serial ++ "; surface: " ++ fmt_d surface.id ++ ", x, y: " ++
      x.fixed_f surface_x ++ ", " ++ x.fixed_f surface_y ++ "\n")).out, []⟩

/-- The handler `wl_pointer_leave`; the serial is not printed. -/
def wl_pointer_leave (state : wev_state K S) (wl_pointer : wl_proxy)
    (serial : Nat) (surface : wl_proxy) : Step K S :=
  let _ := serial
  ⟨state, (proxy_log state.opts wl_pointer "leave" "surface: %d\n"
    ("surface: " ++ fmt_d surface.id ++ "\n")).out, []⟩

/-- The handler `wl_pointer_motion`. -/
def wl_pointer_motion (x : Extern K S) (state : wev_state K S) (wl_pointer : wl_proxy)
    (time : Nat) (surface_x surface_y : Int) : Step K S :=
  ⟨state, (proxy_log state.opts wl_pointer "motion" "time: %d; x, y: %f, %f\n"
    ("time: " ++ fmt_d time ++ "; x, y: " ++ x.fixed_f surface_x ++ ", " ++
      x.fixed_f surface_y ++ "\n")).out, []⟩

/-- The handler `wl_pointer_button`. -/
def wl_pointer_button (wev_state : wev_state K S) (wl_pointer : wl_proxy)
    (serial time button state : Nat) : Step K S :=
  ⟨wev_state, (proxy_log wev_state.opts wl_pointer "button"
    "serial: %d; time: %d; button: %d (%s), state: %d (%s)\n"
    ("serial: " ++ fmt_d serial ++ "; time: " ++ fmt_d time ++ "; button: " ++ fmt_d button ++
      " (" ++ pointer_button_str button ++ "), state: " ++ fmt_d state ++ " (" ++
      pointer_state_str state ++ ")\n")).out, []⟩

/-- The handler `wl_pointer_axis`. -/
def wl_pointer_axis (x : Extern K S) (state : wev_state K S) (wl_pointer : wl_proxy)
    (time axis : Nat) (value : Int) : Step K S :=
  ⟨state, (proxy_log state.opts wl_pointer "axis" "time: %d; axis: %d (%s), value: %f\n"
    ("time: " ++ fmt_d time ++ "; axis: " ++ fmt_d axis ++ " (" ++ pointer_axis_str axis ++
      "), value: " ++ x.fixed_f value ++ "\n")).out, []⟩

/-- The handler `wl_pointer_frame`. -/
def wl_pointer_frame (state : wev_state K S) (wl_pointer : wl_proxy) : Step K S :=
  ⟨state, (proxy_log state.opts wl_pointer "frame" "\n" "\n").out, []⟩

/-- The handler `wl_pointer_axis_source`. -/
def wl_pointer_axis_source (state : wev_state K S) (wl_pointer : wl_proxy)
    (axis_source : Nat) : Step K S :=
  ⟨state, (proxy_log state.opts wl_pointer "axis_source" "%d (%s)\n"
    (fmt_d axis_source ++ " (" ++ pointer_axis_source_str axis_source ++ ")\n")).out, []⟩

/-- The handler `wl_pointer_axis_stop`. -/
def wl_pointer_axis_stop (state : wev_state K S) (wl_pointer : wl_proxy)
    (time axis : Nat) : Step K S :=
  ⟨state, (proxy_log state.opts wl_pointer "axis_stop" "time: %d; axis: %d (%s)\n"
    ("time: " ++ fmt_d time ++ "; axis: " ++ fmt_d axis ++ " (" ++ pointer_axis_str axis ++
      ")\n")).out, []⟩

/-- The handler `wl_pointer_axis_discrete`.  The event name it passes to
`proxy_log` is the string `axis_stop`, as in the source. -/
def wl_pointer_axis_discrete (state : wev_state K S) (wl_pointer : wl_proxy)
    (axis : Nat) (discrete : Int) : Step K S :=
  ⟨state, (proxy_log state.opts wl_pointer "axis_stop" "axis: %d (%s), discrete: %d\n"
    ("axis: " ++ fmt_d axis ++ " (" ++ pointer_axis_str axis ++ "), discrete: " ++
      fmt_i discrete ++ "\n")).out, []⟩

/-! ## The remaining keyboard handlers -/

/-- The handler `wl_keyboard_leave`. -/
def wl_keyboard_leave (state : wev_state K S) (wl_keyboard : wl_proxy)
    (serial : Nat) (surface : wl_proxy) : Step K S :=
  ⟨state, (proxy_log state.opts wl_keyboard "leave" "serial: %d; surface: %d\n"
    ("serial: " ++ fmt_d serial ++ "; surface: " ++ fmt_d surface.id ++ "\n")).out, []⟩

/-- The handler `wl_keyboard_repeat_info`. -/
def wl_keyboard_repeat_info (state : wev_state K S) (wl_keyboard : wl_proxy)
    (rate delay : Int) : Step K S :=
  ⟨state, (proxy_log state.opts wl_keyboard "repeat_info" "rate: %d keys/sec; delay: %d ms\n"
    ("rate: " ++ fmt_i rate ++ " keys/sec; delay: " ++ fmt_i delay ++ " ms\n")).out, []⟩

/-! ## Touch handlers -/

/-- The handler `wl_touch_down`. -/
def wl_touch_down (x : Extern K S) (state : wev_state K S) (wl_touch : wl_proxy)
    (serial time : Nat) (surface : wl_proxy) (id : Int) (px py : Int) : Step K S :=
  ⟨state, (proxy_log state.opts wl_touch "down"
    "serial: %d; time: %d; surface: %d; id: %d; x, y: %f, %f\n"
    ("serial: " ++ fmt_d serial ++ "; time: " ++ fmt_d time ++ "; surface: " ++
      fmt_d surface.id ++ "; id: " ++ fmt_i id ++ "; x, y: " ++ x.fixed_f px ++ ", " ++
      x.fixed_f py ++ "\n")).out, []⟩

/-- The handler `wl_touch_up`. -/
def wl_touch_up (state : wev_state K S) (wl_touch : wl_proxy)
    (serial time : Nat) (id : Int) : Step K S :=
  ⟨state, (proxy_log state.opts wl_touch "up" "serial: %d; time: %d; id: %d\n"
    ("serial: " ++ fmt_d serial ++ "; time: " ++ fmt_d time ++ "; id: " ++ fmt_i id ++
      "\n")).out, []⟩

/-- The handler `wl_touch_motion`. -/
def wl_touch_motion (x : Extern K S) (state : wev_state K S) (wl_touch : wl_proxy)
    (time : Nat) (id : Int) (px py : Int) : Step K S :=
  ⟨state, (proxy_log state.opts wl_touch "motion" "time: %d; id: %d; x, y: %f, %f\n"
    ("time: " ++ fmt_d time ++ "; id: " ++ fmt_i id ++ "; x, y: " ++ x.fixed_f px ++ ", " ++
      x.fixed_f py ++ "\n")).out, []⟩

/-- The handler `wl_touch_frame`. -/
def wl_touch_frame (state : wev_state K S) (wl_touch : wl_proxy) : Step K S :=
  ⟨state, (proxy_log state.opts wl_touch "frame" "\n" "\n").out, []⟩

/-- The handler `wl_touch_cancel`. -/
def wl_touch_cancel (state : wev_state K S) (wl_touch : wl_proxy) : Step K S :=
  ⟨state, (proxy_log state.opts wl_touch "cancel" "\n" "\n").out, []⟩

/-- The handler `wl_touch_shape`. -/
def wl_touch_shape (x : Extern K S) (state : wev_state K S) (wl_touch : wl_proxy)
    (id : Int) (major minor : Int) : Step K S :=
  ⟨state, (proxy_log state.opts wl_touch "shape" "id: %d; major, minor: %f, %f\n"
    ("id: " ++ fmt_i id ++ "; major, minor: " ++ x.fixed_f major ++ ", " ++
      x.fixed_f minor ++ "\n")).out, []⟩

/-- The handler `wl_touch_orientation`.  The event name it passes to `proxy_log`
is the string `shape`, as in the source. -/
def wl_touch_orientation (x : Extern K S) (state : wev_state K S) (wl_touch : wl_proxy)
    (id : Int) (orientation : Int) : Step K S :=
  ⟨state, (proxy_log state.opts wl_touch "shape" "id: %d; orientation: %f\n"
    ("id: " ++ fmt_i id ++ "; orientation: " ++ x.fixed_f orientation ++ "\n")).out, []⟩

/-! ## Data-offer handlers -/

/-- The function `dnd_actions_str`: a switch over the eight combinations of the
three action bits, with a default. -/
def dnd_actions_str (state : Nat) : String :=
  if state = WL_DATA_DEVICE_MANAGER_DND_ACTION_NONE then "none"
  else if state = WL_DATA_DEVICE_MANAGER_DND_ACTION_COPY then "copy"
  else if state = WL_DATA_DEVICE_MANAGER_DND_ACTION_MOVE then "move"
  else if state = WL_DATA_DEVICE_MANAGER_DND_ACTION_COPY |||
      WL_DATA_DEVICE_MANAGER_DND_ACTION_MOVE then "copy, move"
  else if state = WL_DATA_DEVICE_MANAGER_DND_ACTION_ASK then "ask"
  else if state = WL_DATA_DEVICE_MANAGER_DND_ACTION_COPY |||
      WL_DATA_DEVICE_MANAGER_DND_ACTION_ASK then "copy, ask"
  else if state = WL_DATA_DEVICE_MANAGER_DND_ACTION_MOVE |||
      WL_DATA_DEVICE_MANAGER_DND_ACTION_ASK then "move, ask"
  else if state = WL_DATA_DEVICE_MANAGER_DND_ACTION_COPY |||
      WL_DATA_DEVICE_MANAGER_DND_ACTION_MOVE |||
      WL_DATA_DEVICE_MANAGER_DND_ACTION_ASK then "copy, move, ask"
  else "unknown"

/-- The handler `wl_data_offer_offer`. -/
def wl_data_offer_offer (state : wev_state K S) (offer : wl_proxy) (mime_type : String) :
    Step K S :=
  ⟨state, (proxy_log state.opts offer "offer" "mime_type: %s\n"
    ("mime_type: " ++ mime_type ++ "\n")).out, []⟩

/-- The handler `wl_data_offer_source_actions`. -/
def wl_data_offer_source_actions (state : wev_state K S) (offer : wl_proxy) (actions : Nat) :
    Step K S :=
  ⟨state, (proxy_log state.opts offer "source_actions" "actions: %u (%s)\n"
    ("actions: " ++ fmt_u actions ++ " (" ++ dnd_actions_str actions ++ ")\n")).out, []⟩

/-- The handler `wl_data_offer_action`. -/
def wl_data_offer_action (state : wev_state K S) (offer : wl_proxy) (dnd_action : Nat) :
    Step K S :=
  ⟨state, (proxy_log state.opts offer "action" "dnd_action: %u (%s)\n"
    ("dnd_action: " ++ fmt_u dnd_action ++ " (" ++ dnd_actions_str dnd_action ++ ")\n")).out, []⟩

/-! ## Window handlers -/

/-- The text `xdg_toplevel_configure` prints for one element of the state array. -/
def toplevel_state_str (s : Nat) : String :=
  if s = XDG_TOPLEVEL_STATE_MAXIMIZED then "maximized "
  else if s = XDG_TOPLEVEL_STATE_FULLSCREEN then "fullscreen "
  else if s = XDG_TOPLEVEL_STATE_RESIZING then "resizing "
  else if s = XDG_TOPLEVEL_STATE_ACTIVATED then "activated "
  else if s = XDG_TOPLEVEL_STATE_TILED_LEFT then "tiled-left "
  else if s = XDG_TOPLEVEL_STATE_TILED_RIGHT then "tiled-right "
  else if s = XDG_TOPLEVEL_STATE_TILED_TOP then "tiled-top "
  else if s = XDG_TOPLEVEL_STATE_TILED_BOTTOM then "tiled-bottom "
  else ""

/-- The handler `xdg_toplevel_configure`: the size is stored, with 640 by 480 in
place of a zero width or height, before `proxy_log` is called. -/
def xdg_toplevel_configure (state : wev_state K S) (xdg_toplevel : wl_proxy)
    (width height : Int) (states : List Nat) : Step K S :=
  let state1 : wev_state K S :=
    if width = 0 ∨ height = 0 then { state with width := 640, height := 480 }
    else { state with width := width, height := height }
  let log := proxy_log state1.opts xdg_toplevel "configure" "width: %d; height: %d"
    ("width: " ++ fmt_i width ++ "; height: " ++ fmt_i height)
  if log.n ≠ 0 then
    ⟨state1, log.out ++ (if states.length > 0 then "\n" ++ SPACER else "") ++
      String.join (states.map toplevel_state_str) ++ "\n", []⟩
  else
    ⟨state1, log.out, []⟩

/-- The handler `xdg_toplevel_close`. -/
def xdg_toplevel_close (state : wev_state K S) (xdg_toplevel : wl_proxy) : Step K S :=
  let state1 : wev_state K S := { state with closed := true }
  ⟨state1, (proxy_log state1.opts xdg_toplevel "close" "\n" "\n").out, []⟩

/-- The handler `xdg_surface_configure`.  The function `create_buffer`, with the
buffer it gives, is recorded as one call on the stored size. -/
def xdg_surface_configure (state : wev_state K S) (xdg_surface : wl_proxy) (serial : Nat) :
    Step K S :=
  ⟨state, (proxy_log state.opts xdg_surface "configure" "serial: %d\n"
      ("serial: " ++ fmt_d serial ++ "\n")).out,
    [Call.xdg_surface_ack_configure xdg_surface serial,
      Call.create_buffer state.width state.height,
      Call.wl_surface_attach state.surface,
      Call.wl_surface_damage_buffer state.surface,
      Call.wl_surface_commit state.surface]⟩

/-- The handler `wm_base_ping`. -/
def wm_base_ping (state : wev_state K S) (wm_base : wl_proxy) (serial : Nat) : Step K S :=
  ⟨state, "", [Call.xdg_wm_base_pong wm_base serial]⟩

/-- The handler `wl_buffer_release`. -/
def wl_buffer_release (state : wev_state K S) (wl_buffer : wl_proxy) : Step K S :=
  ⟨state, "", [Call.wl_buffer_destroy wl_buffer]⟩

/-! ## Registry and the required objects -/

/-- The handler `registry_global`.  Each entry of `handles` whose interface name
equals `interface` is bound at its version and stored; `bound` is the object
`wl_registry_bind` gives. -/
def registry_global (state : wev_state K S) (wl_registry : wl_proxy)
    (name : Nat) (interface : String) (version : Nat) (bound : wl_proxy) : Step K S :=
  let hit (iface : String) : Bool := strcmp interface iface == 0
  let s1 : wev_state K S :=
    if hit "wl_compositor" then { state with compositor := some bound } else state
  let s2 : wev_state K S := if hit "wl_seat" then { s1 with seat := some bound } else s1
  let s3 : wev_state K S := if hit "wl_shm" then { s2 with shm := some bound } else s2
  let s4 : wev_state K S := if hit "xdg_wm_base" then { s3 with wm_base := some bound } else s3
  let s5 : wev_state K S :=
    if hit "wl_data_device_manager" then { s4 with data_device_manager := some bound } else s4
  let bind (iface : String) (v : Nat) : List (Call K S) :=
    if hit iface then [Call.wl_registry_bind name iface v] else []
  ⟨s5,
    if state.opts.print_globals then
      (proxy_log state.opts wl_registry "global" "interface: \x27%s\x27, version: %d, name: %d\n"
        ("interface: \x27" ++ interface ++ "\x27, version: " ++ fmt_d version ++ ", name: " ++
          fmt_d name ++ "\n")).out
    else "",
    bind "wl_compositor" 4 ++ bind "wl_seat" 6 ++ bind "wl_shm" 1 ++ bind "xdg_wm_base" 2 ++
      bind "wl_data_device_manager" 3⟩

/-- The handler `registry_global_remove`: it does nothing. -/
def registry_global_remove (state : wev_state K S) (wl_registry : wl_proxy) (name : Nat) :
    Step K S :=
  let _ := wl_registry
  let _ := name
  ⟨state, "", []⟩

/-- How the check of the required objects in `main` ends: `main` returns with an
exit code after a message on the error stream, or goes on. -/
inductive check_result where
  | exit (code : Nat) (message : String)
  | proceed
  deriving DecidableEq, Repr

/-- The array `required` of `main`: the name and the bound pointer of each of the
five object classes. -/
def required (state : wev_state K S) : List (String × Option wl_proxy) :=
  [("wl_compositor", state.compositor), ("wl_seat", state.seat), ("wl_shm", state.shm),
    ("xdg_wm_base", state.wm_base), ("wl_data_device_manager", state.data_device_manager)]

/-- The loop over `required` in `main`, from the entries still to visit.  The test
is `required->ptr == NULL`, the pointer of the first entry of the array, on
every round; the message names `required[i].name`, the entry of the round. -/
def required_loop (first_ptr : Option wl_proxy) :
    List (String × Option wl_proxy) → check_result
  | [] => check_result.proceed
  | entry :: rest =>
    if first_ptr = none then
      check_result.exit 1 (entry.1 ++ " is required but is not present.\n")
    else required_loop first_ptr rest

/-- The check of the required objects in `main`. -/
def main_required_check (state : wev_state K S) : check_result :=
  required_loop ((required state).headD ("", none)).2 (required state)

end Handlers

/-! ## The filter contract in the specification's words -/

/-- A rule matches a class name and an event name when its class is that class and
it either has no event name or has that event name. -/
def rule_matches (rule : wev_filter) (class_name event_name : String) : Prop :=
  rule.interface = class_name ∧ (rule.event = none ∨ rule.event = some event_name)

instance (rule : wev_filter) (class_name event_name : String) :
    Decidable (rule_matches rule class_name event_name) := by
  unfold rule_matches; infer_instance

/-- The contract `should_emit`: the include gate (no include rules, or some include
rule matches) and the exclude gate (no exclude rules, or no exclude rule
matches). -/
def should_emit (include_rules exclude_rules : List wev_filter)
    (class_name event_name : String) : Prop :=
  (include_rules = [] ∨ ∃ rule ∈ include_rules, rule_matches rule class_name event_name) ∧
    (exclude_rules = [] ∨ ¬ ∃ rule ∈ exclude_rules, rule_matches rule class_name event_name)

instance (include_rules exclude_rules : List wev_filter) (class_name event_name : String) :
    Decidable (should_emit include_rules exclude_rules class_name event_name) := by
  unfold should_emit; infer_instance

/-! ## Reading the call lists -/

section Observations

variable {K S : Type}

/-- The symbol lookups among `calls`: the state and the key code of each
`xkb_state_key_get_one_sym` call, in order. -/
def sym_lookups (calls : List (Call K S)) : List (Option S × Nat) :=
  calls.filterMap (fun c =>
    match c with
    | Call.xkb_state_key_get_one_sym state key => some (state, key)
    | _ => none)

/-- The UTF-8 lookups among `calls`: the state and the key code of each
`xkb_state_key_get_utf8` call, in order. -/
def utf8_lookups (calls : List (Call K S)) : List (Option S × Nat) :=
  calls.filterMap (fun c =>
    match c with
    | Call.xkb_state_key_get_utf8 state key => some (state, key)
    | _ => none)

/-- The offers `wl_data_offer_destroy` is called on among `calls`, in order. -/
def destroys (calls : List (Call K S)) : List (Option wl_proxy) :=
  calls.filterMap (fun c =>
    match c with
    | Call.wl_data_offer_destroy offer => some offer
    | _ => none)

/-- Whether a call compiles a keymap or creates a state from one. -/
def is_compile (c : Call K S) : Bool :=
  match c with
  | Call.xkb_keymap_new_from_string _ => true
  | Call.xkb_state_new _ => true
  | _ => false

end Observations

/-! ## Event sequences -/

section Sequences

variable {K S : Type}

/-- The events of the `wl_data_device_listener` table with their arguments. -/
inductive data_device_event where
  | data_offer (id : wl_proxy)
  | enter (serial : Nat) (surface : wl_proxy) (px py : Int) (id : wl_proxy)
  | leave
  | motion (serial : Nat) (px py : Int)
  | drop
  | selection (id : Option wl_proxy)
  deriving DecidableEq

/-- The table `wl_data_device_listener`: each event goes to its handler. -/
def data_device_dispatch (x : Extern K S) (state : wev_state K S) (device : wl_proxy) :
    data_device_event → Step K S
  | .data_offer id => wl_data_device_data_offer state device id
  | .enter serial surface px py id => wl_data_device_enter x state device serial surface px py id
  | .leave => wl_data_device_leave state device
  | .motion serial px py => wl_data_device_motion x state device serial px py
  | .drop => wl_data_device_drop state device
  | .selection id => wl_data_device_selection state device id

/-- A run of the tracker: the current state, every state held so far (the starting
state first) and every call made so far. -/
structure Run (K S : Type) where
  state : wev_state K S
  visited : List (wev_state K S)
  calls : List (Call K S)

/-- The run before any event. -/
def Run.start (state : wev_state K S) : Run K S := ⟨state, [state], []⟩

/-- The run after one more data-device event. -/
def Run.step (x : Extern K S) (device : wl_proxy) (r : Run K S) (e : data_device_event) :
    Run K S :=
  let s := data_device_dispatch x r.state device e
  ⟨s.state, r.visited ++ [s.state], r.calls ++ s.calls⟩

/-- The run of a sequence of data-device events from `state`. -/
def run_data_device (x : Extern K S) (device : wl_proxy) (state : wev_state K S)
    (events : List data_device_event) : Run K S :=
  events.foldl (Run.step x device) (Run.start state)

/-- At most one live selection handle: every handle that was held in the selection
slot and has received no destroy call is the one the slot holds now. -/
def one_live_selection (r : Run K S) : Prop :=
  ∀ h : wl_proxy, (∃ w ∈ r.visited, w.selection = some h) →
    Call.wl_data_offer_destroy (some h) ∉ r.calls → r.state.selection = some h

/-- At most one live drag handle: every handle that was held in the drag slot and
has received no destroy call is the one the slot holds now. -/
def one_live_drag (r : Run K S) : Prop :=
  ∀ h : wl_proxy, (∃ w ∈ r.visited, w.dnd = some h) →
    Call.wl_data_offer_destroy (some h) ∉ r.calls → r.state.dnd = some h

/-- Whether every `enter` of the sequence arrives while the drag slot is empty, as
it does when each drag ends with a leave or a drop before the next begins. -/
def enters_on_empty (x : Extern K S) (device : wl_proxy) :
    wev_state K S → List data_device_event → Bool
  | _, [] => true
  | state, e :: es =>
    (match e with
      | .enter _ _ _ _ _ => state.dnd.isNone
      | _ => true) &&
    enters_on_empty x device (data_device_dispatch x state device e).state es

/-- The keyboard events that read or change the keymap and the live state, with
their arguments. -/
inductive keyboard_event where
  | keymap (format : Nat) (fd : Int) (size : Nat) (map_shm : Option String)
  | enter (serial : Nat) (surface : wl_proxy) (keys : List Nat)
  | key (serial time key state : Nat)
  | modifiers (serial mods_depressed mods_latched mods_locked group stray : Nat)
  deriving DecidableEq

/-- The table `wl_keyboard_listener` on these events. -/
def keyboard_dispatch (x : Extern K S) (state : wev_state K S) (wl_keyboard : wl_proxy) :
    keyboard_event → Step K S
  | .keymap format fd size map_shm => wl_keyboard_keymap x state wl_keyboard format fd size map_shm
  | .enter serial surface keys => wl_keyboard_enter x state wl_keyboard serial surface keys
  | .key serial time key kstate => wl_keyboard_key x state wl_keyboard serial time key kstate
  | .modifiers serial d l k group stray =>
    wl_keyboard_modifiers x state wl_keyboard serial d l k group stray

/-- The state after a sequence of keyboard events. -/
def run_keyboard (x : Extern K S) (wl_keyboard : wl_proxy) (state : wev_state K S)
    (events : List keyboard_event) : wev_state K S :=
  events.foldl (fun w e => (keyboard_dispatch x w wl_keyboard e).state) state

/-- Whether a keyboard event is a keymap update. -/
def keyboard_event.is_keymap : keyboard_event → Bool
  | .keymap _ _ _ _ => true
  | _ => false

/-- The live states derived from the keymap `keymap`: the state `xkb_state_new`
creates from it, and every state reached from that one by modifier updates. -/
inductive derived_from (x : Extern K S) (keymap : Option K) : Option S → Prop where
  | fresh : derived_from x keymap (x.xkb_state_new keymap)
  | update (s : S) (d l k dl ll g : Nat) :
      derived_from x keymap (some s) →
      derived_from x keymap (some (x.xkb_state_update_mask s d l k dl ll g))

/-- The stored keymap and the stored live state are a matched pair: both absent, or
the state is derived from exactly the stored keymap. -/
def paired (x : Extern K S) (state : wev_state K S) : Prop :=
  (state.xkb_keymap = none ∧ state.xkb_state = none) ∨
    derived_from x state.xkb_keymap state.xkb_state

end Sequences

/-! ## Every event of every listener table -/

section Events

variable {K S : Type}

/-- The slot of the `wl_keyboard_listener` table an event of `keyboard_event`
arrives in. -/
def keyboard_event.slot : keyboard_event → String
  | .keymap _ _ _ _ => "keymap"
  | .enter _ _ _ => "enter"
  | .key _ _ _ _ => "key"
  | .modifiers _ _ _ _ _ _ => "modifiers"

/-- The slot of the `wl_data_device_listener` table an event arrives in. -/
def data_device_event.slot : data_device_event → String
  | .data_offer _ => "data_offer"
  | .enter _ _ _ _ _ => "enter"
  | .leave => "leave"
  | .motion _ _ _ => "motion"
  | .drop => "drop"
  | .selection _ => "selection"

/-- The events of all listener tables of the program, one constructor for each slot
(the keyboard and data-device events of the types above are embedded), with
the arguments the transport delivers.  The object the event is for is passed
to the handler separately. -/
inductive wev_event where
  | pointer_enter (serial : Nat) (surface : wl_proxy) (surface_x surface_y : Int)
  | pointer_leave (serial : Nat) (surface : wl_proxy)
  | pointer_motion (time : Nat) (surface_x surface_y : Int)
  | pointer_button (serial time button state : Nat)
  | pointer_axis (time axis : Nat) (value : Int)
  | pointer_frame
  | pointer_axis_source (axis_source : Nat)
  | pointer_axis_stop (time axis : Nat)
  | pointer_axis_discrete (axis : Nat) (discrete : Int)
  | keyboard (e : keyboard_event)
  | keyboard_leave (serial : Nat) (surface : wl_proxy)
  | keyboard_repeat_info (rate delay : Int)
  | touch_down (serial time : Nat) (surface : wl_proxy) (id : Int) (px py : Int)
  | touch_up (serial time : Nat) (id : Int)
  | touch_motion (time : Nat) (id : Int) (px py : Int)
  | touch_frame
  | touch_cancel
  | touch_shape (id : Int) (major minor : Int)
  | touch_orientation (id : Int) (orientation : Int)
  | seat_capabilities (capabilities : Nat)
  | seat_name (name : String)
  | data_offer_offer (mime_type : String)
  | data_offer_source_actions (actions : Nat)
  | data_offer_action (dnd_action : Nat)
  | data_device (e : data_device_event)
  | toplevel_configure (width height : Int) (states : List Nat)
  | toplevel_close
  | surface_configure (serial : Nat)
  | wm_base_ping (serial : Nat)
  | buffer_release
  | registry_global (name : Nat) (interface : String) (version : Nat) (bound : wl_proxy)
  | registry_global_remove (name : Nat)
  deriving DecidableEq

/-- The listener tables: the handler installed in the slot of each event, called on
the object `proxy` the event is for. -/
def handle (x : Extern K S) (state : wev_state K S) (proxy : wl_proxy) : wev_event → Step K S
  | .pointer_enter serial surface sx sy => wl_pointer_enter x state proxy serial surface sx sy
  | .pointer_leave serial surface => wl_pointer_leave state proxy serial surface
  | .pointer_motion time sx sy => wl_pointer_motion x state proxy time sx sy
  | .pointer_button serial time button bstate =>
    wl_pointer_button state proxy serial time button bstate
  | .pointer_axis time axis value => wl_pointer_axis x state proxy time axis value
  | .pointer_frame => wl_pointer_frame state proxy
  | .pointer_axis_source axis_source => wl_pointer_axis_source state proxy axis_source
  | .pointer_axis_stop time axis => wl_pointer_axis_stop state proxy time axis
  | .pointer_axis_discrete axis discrete => wl_pointer_axis_discrete state proxy axis discrete
  | .keyboard e => keyboard_dispatch x state proxy e
  | .keyboard_leave serial surface => wl_keyboard_leave state proxy serial surface
  | .keyboard_repeat_info rate delay => wl_keyboard_repeat_info state proxy rate delay
  | .touch_down serial time surface id px py =>
    wl_touch_down x state proxy serial time surface id px py
  | .touch_up serial time id => wl_touch_up state proxy serial time id
  | .touch_motion time id px py => wl_touch_motion x state proxy time id px py
  | .touch_frame => wl_touch_frame state proxy
  | .touch_cancel => wl_touch_cancel state proxy
  | .touch_shape id major minor => wl_touch_shape x state proxy id major minor
  | .touch_orientation id orientation => wl_touch_orientation x state proxy id orientation
  | .seat_capabilities capabilities => wl_seat_capabilities state proxy capabilities
  | .seat_name name => wl_seat_name state proxy name
  | .data_offer_offer mime_type => wl_data_offer_offer state proxy mime_type
  | .data_offer_source_actions actions => wl_data_offer_source_actions state proxy actions
  | .data_offer_action dnd_action => wl_data_offer_action state proxy dnd_action
  | .data_device e => data_device_dispatch x state proxy e
  | .toplevel_configure width height states =>
    xdg_toplevel_configure state proxy width height states
  | .toplevel_close => xdg_toplevel_close state proxy
  | .surface_configure serial => xdg_surface_configure state proxy serial
  | .wm_base_ping serial => wm_base_ping state proxy serial
  | .buffer_release => wl_buffer_release state proxy
  | .registry_global name interface version bound =>
    registry_global state proxy name interface version bound
  | .registry_global_remove name => registry_global_remove state proxy name

/-- The name of the listener slot each event arrives in: the member the handler is
assigned to in its listener table. -/
def wev_event.slot : wev_event → String
  | .pointer_enter _ _ _ _ => "enter"
  | .pointer_leave _ _ => "leave"
  | .pointer_motion _ _ _ => "motion"
  | .pointer_button _ _ _ _ => "button"
  | .pointer_axis _ _ _ => "axis"
  | .pointer_frame => "frame"
  | .pointer_axis_source _ => "axis_source"
  | .pointer_axis_stop _ _ => "axis_stop"
  | .pointer_axis_discrete _ _ => "axis_discrete"
  | .keyboard e => e.slot
  | .keyboard_leave _ _ => "leave"
  | .keyboard_repeat_info _ _ => "repeat_info"
  | .touch_down _ _ _ _ _ _ => "down"
  | .touch_up _ _ _ => "up"
  | .touch_motion _ _ _ _ => "motion"
  | .touch_frame => "frame"
  | .touch_cancel => "cancel"
  | .touch_shape _ _ _ => "shape"
  | .touch_orientation _ _ => "orientation"
  | .seat_capabilities _ => "capabilities"
  | .seat_name _ => "name"
  | .data_offer_offer _ => "offer"
  | .data_offer_source_actions _ => "source_actions"
  | .data_offer_action _ => "action"
  | .data_device e => e.slot
  | .toplevel_configure _ _ _ => "configure"
  | .toplevel_close => "close"
  | .surface_configure _ => "configure"
  | .wm_base_ping _ => "ping"
  | .buffer_release => "release"
  | .registry_global _ _ _ _ => "global"
  | .registry_global_remove _ => "global_remove"

/-- Whether an event belongs to the pointer, keyboard, touch, seat, data-offer or
data-device listener table. -/
def wev_event.is_input : wev_event → Bool
  | .toplevel_configure _ _ _ => false
  | .toplevel_close => false
  | .surface_configure _ => false
  | .wm_base_ping _ => false
  | .buffer_release => false
  | .registry_global _ _ _ _ => false
  | .registry_global_remove _ => false
  | _ => true

/-- Whether a call is a request sent back to the transport. -/
def is_transport (c : Call K S) : Bool :=
  match c with
  | Call.wl_data_offer_destroy _ => true
  | Call.wl_data_offer_set_actions _ _ _ => true
  | Call.wl_data_offer_accept _ _ _ => true
  | Call.wl_data_offer_add_listener _ => true
  | Call.wl_seat_get_pointer _ => true
  | Call.wl_seat_get_keyboard _ => true
  | Call.wl_seat_get_touch _ => true
  | Call.xdg_surface_ack_configure _ _ => true
  | Call.xdg_wm_base_pong _ _ => true
  | Call.wl_registry_bind _ _ _ => true
  | Call.wl_buffer_destroy _ => true
  | Call.create_buffer _ _ => true
  | Call.wl_surface_attach _ => true
  | Call.wl_surface_damage_buffer _ => true
  | Call.wl_surface_commit _ => true
  | _ => false

/-- Whether a call is a read-only query of the keymap library, made to print a
detail line. -/
def is_query (c : Call K S) : Bool :=
  match c with
  | Call.xkb_state_key_get_one_sym _ _ => true
  | Call.xkb_state_key_get_utf8 _ _ => true
  | Call.xkb_keysym_get_name _ => true
  | Call.xkb_keymap_mod_get_name _ _ => true
  | _ => false

/-- The state with its two filter lists replaced and everything else kept. -/
def with_filters (state : wev_state K S) (filters inverse_filters : List wev_filter) :
    wev_state K S :=
  { state with opts := { state.opts with filters := filters, inverse_filters := inverse_filters } }

/-- The tracked state: the keymap and live state (which carries the modifier
masks), the selection and drag slots, the size and the closed flag. -/
def tracked (state : wev_state K S) :
    Option K × Option S × Option wl_proxy × Option wl_proxy × Int × Int × Bool :=
  (state.xkb_keymap, state.xkb_state, state.selection, state.dnd, state.width, state.height,
    state.closed)

end Events

/-! ## Drag actions in the specification's words -/

/-- The names of the action bits set in `v`, in the fixed order copy (bit 1), move
(bit 2), ask (bit 4), separated by a comma and a space. -/
def action_bit_names (v : Nat) : String :=
  ", ".intercalate
    ((if v % 2 = 1 then ["copy"] else []) ++ (if v / 2 % 2 = 1 then ["move"] else []) ++
      (if v / 4 % 2 = 1 then ["ask"] else []))

/-! ## A small keymap library for concrete runs -/

/-- A keymap library in which a keymap is its source text and a live state is the
keymap together with the modifier mask in force: key code 38 gives the symbol
97 and the text `a`, or 65 and `A` when a modifier is set; other codes give no
symbol and no text. -/
def sample_extern : Extern String (String × Nat) where
  xkb_keymap_new_from_string := fun bytes => if bytes.isEmpty then none else some bytes
  xkb_state_new := fun keymap => keymap.map (fun k => (k, 0))
  xkb_state_update_mask := fun s d l k _ _ _ => (s.1, d ||| l ||| k)
  xkb_state_key_get_one_sym := fun s key =>
    match s with
    | some (_, mods) => if key = 38 then (if mods = 0 then 97 else 65) else 0
    | none => 0
  xkb_state_key_get_utf8 := fun s key =>
    match s with
    | some (_, mods) => if key = 38 then (if mods = 0 then "a" else "A") else ""
    | none => ""
  xkb_keysym_get_name := fun sym => if sym = 97 then "a" else if sym = 65 then "A" else "NoSymbol"
  xkb_keymap_mod_get_name := fun keymap idx =>
    match keymap with
    | some _ => if idx = 0 then some "Shift" else none
    | none => none
  fixed_f := fun v => toString (v / 256)

/-- A keyboard object. -/
def sample_keyboard : wl_proxy := ⟨5, "wl_keyboard"⟩
/-- A seat object. -/
def sample_seat : wl_proxy := ⟨3, "wl_seat"⟩
/-- A data-device object. -/
def sample_device : wl_proxy := ⟨7, "wl_data_device"⟩
/-- A surface object. -/
def sample_surface : wl_proxy := ⟨9, "wl_surface"⟩
/-- A first data offer. -/
def offer_a : wl_proxy := ⟨10, "wl_data_offer"⟩
/-- A second data offer. -/
def offer_b : wl_proxy := ⟨11, "wl_data_offer"⟩

/-- A state with the rule lists of `-f wl_seat -F wl_seat:name`. -/
def seat_filtered_state : wev_state String (String × Nat) :=
  { opts := { filters := [⟨"wl_seat", none⟩], inverse_filters := [⟨"wl_seat", some "name"⟩] } }

/-- A state with a keymap installed and no filter rules. -/
def keyed_state : wev_state String (String × Nat) :=
  { xkb_keymap := some "xkb_keymap", xkb_state := some ("xkb_keymap", 0) }

/-- A pointer object. -/
def sample_pointer : wl_proxy := ⟨12, "wl_pointer"⟩
/-- A touch object. -/
def sample_touch : wl_proxy := ⟨13, "wl_touch"⟩
/-- The registry object. -/
def sample_registry : wl_proxy := ⟨2, "wl_registry"⟩

/-- The state after the first round trip when the registry announces every required
class except `wl_seat`: the initial state taken through `registry_global` for
the four announcements. -/
def seatless_state : wev_state String (String × Nat) :=
  [((1 : Nat), "wl_compositor", (4 : Nat)), (2, "wl_shm", 1), (3, "xdg_wm_base", 2),
    (4, "wl_data_device_manager", 3)].foldl
    (fun state g =>
      (registry_global state sample_registry g.1 g.2.1 g.2.2 ⟨20 + g.1, g.2.1⟩).state)
    (wev_state.init String (String × Nat))

/-- A state whose only include rule is `wl_pointer:axis_discrete`. -/
def axis_discrete_only_state : wev_state String (String × Nat) :=
  { opts := { filters := [⟨"wl_pointer", some "axis_discrete"⟩] } }

/-- A state whose only include rule is `wl_touch:orientation`. -/
def orientation_only_state : wev_state String (String × Nat) :=
  { opts := { filters := [⟨"wl_touch", some "orientation"⟩] } }

/-! ## Lemmas on strings and on the filter loops -/

section Proofs

variable {K S : Type}

theorem strcmp_chars_eq_zero (a b : List Char) : strcmp_chars a b = 0 ↔ a = b := by
  induction a generalizing b with
  | nil => cases b <;> simp [strcmp_chars]
  | cons c cs ih =>
    cases b with
    | nil => simp [strcmp_chars]
    | cons d ds =>
      by_cases h : c = d
      · simp [strcmp_chars, h, ih]
      · by_cases hlt : c.toNat < d.toNat <;> simp [strcmp_chars, h, hlt]

theorem strcmp_eq_zero (a b : String) : strcmp a b = 0 ↔ a = b := by
  unfold strcmp
  rw [strcmp_chars_eq_zero]
  constructor
  · intro h
    exact String.ext h
  · intro h
    rw [h]

theorem filter_hit_iff (rule : wev_filter) (cls event : String) :
    filter_hit rule cls event = true ↔ rule_matches rule cls event := by
  unfold filter_hit rule_matches
  cases hev : rule.event with
  | none => simp [strcmp_eq_zero]
  | some e => simp [strcmp_eq_zero]

theorem scan_filters_acc (list : List wev_filter) (cls event : String) (found : Bool) :
    list.foldl (fun found filter => if filter_hit filter cls event then true else found) found
      = (found || list.any (fun filter => filter_hit filter cls event)) := by
  induction list generalizing found with
  | nil => simp
  | cons f fs ih =>
    simp only [List.foldl_cons, List.any_cons, ih]
    cases filter_hit f cls event <;> cases found <;> simp

theorem scan_filters_iff (list : List wev_filter) (cls event : String) :
    scan_filters list cls event = true ↔ ∃ rule ∈ list, rule_matches rule cls event := by
  unfold scan_filters
  rw [scan_filters_acc]
  simp [filter_hit_iff]

theorem log_header_length_pos (proxy : wl_proxy) (event fmt : String) :
    0 < (log_header proxy event fmt).length := by
  unfold log_header
  simp only [String.length_append]
  have : "[".length = 1 := by decide
  omega

theorem log_header_ne_empty (proxy : wl_proxy) (event fmt body : String) :
    log_header proxy event fmt ++ body ≠ "" := by
  intro h
  have hl := congrArg String.length h
  have hp := log_header_length_pos proxy event fmt
  simp only [String.length_append] at hl
  have : "".length = 0 := by decide
  omega

/-- The two results of `proxy_log`, selected by the contract. -/
theorem proxy_log_eq (opts : wev_options) (proxy : wl_proxy) (event fmt body : String) :
    proxy_log opts proxy event fmt body =
      if should_emit opts.filters opts.inverse_filters proxy.cls event then
        ⟨(log_header proxy event fmt).length + body.length, log_header proxy event fmt ++ body⟩
      else ⟨0, ""⟩ := by
  unfold proxy_log should_emit
  simp only [← scan_filters_iff]
  generalize scan_filters opts.filters proxy.cls event = a
  generalize scan_filters opts.inverse_filters proxy.cls event = b
  generalize opts.filters = fs
  generalize opts.inverse_filters = ifs
  cases fs <;> cases ifs <;> cases a <;> cases b <;> simp

theorem proxy_log_n_ne_zero (opts : wev_options) (proxy : wl_proxy) (event fmt body : String) :
    (proxy_log opts proxy event fmt body).n ≠ 0 ↔
      should_emit opts.filters opts.inverse_filters proxy.cls event := by
  rw [proxy_log_eq]
  have hp := log_header_length_pos proxy event fmt
  by_cases h : should_emit opts.filters opts.inverse_filters proxy.cls event
  · simp only [h, if_true, iff_true]
    omega
  · simp [h]

theorem proxy_log_out_suppressed (opts : wev_options) (proxy : wl_proxy)
    (event fmt body : String)
    (h : ¬ should_emit opts.filters opts.inverse_filters proxy.cls event) :
    (proxy_log opts proxy event fmt body).out = "" := by
  rw [proxy_log_eq]
  simp [h]

theorem sym_lookups_enter (x : Extern K S) (st : Option S) (keys : List Nat) :
    sym_lookups (enter_detail_calls x st keys) = keys.map (fun key => (st, (key + 8) % 2 ^ 32)) := by
  induction keys with
  | nil => simp [enter_detail_calls, sym_lookups]
  | cons k ks ih =>
    simp only [enter_detail_calls, sym_lookups, List.map_cons, List.flatten_cons,
      List.filterMap_append] at ih ⊢
    rw [ih]
    simp [key_detail_calls]

theorem utf8_lookups_enter (x : Extern K S) (st : Option S) (keys : List Nat) :
    utf8_lookups (enter_detail_calls x st keys)
      = keys.map (fun key => (st, (key + 8) % 2 ^ 32)) := by
  induction keys with
  | nil => simp [enter_detail_calls, utf8_lookups]
  | cons k ks ih =>
    simp only [enter_detail_calls, utf8_lookups, List.map_cons, List.flatten_cons,
      List.filterMap_append] at ih ⊢
    rw [ih]
    simp [key_detail_calls]

theorem sym_lookups_key (x : Extern K S) (state : wev_state K S) (wl_keyboard : wl_proxy)
    (serial time key kstate : Nat) :
    sym_lookups (wl_keyboard_key x state wl_keyboard serial time key kstate).calls =
      [(state.xkb_state, (key + 8) % 2 ^ 32)] := by
  unfold wl_keyboard_key
  by_cases hn : (wl_keyboard_key_log state.opts wl_keyboard serial time key kstate).n ≠ 0
  · simp [hn, sym_lookups, key_detail_calls]
  · simp only [hn, if_false]
    simp [sym_lookups]

/-! ## The filter engine -/

/-- C1: for every include list, exclude list, class name and event name, the
function `proxy_log` writes the event (its header followed by the caller's
fields, never the empty text) exactly when the include gate and the exclude
gate of the contract both pass, and writes nothing otherwise. -/
theorem proxy_log_emits_iff_should_emit (opts : wev_options) (proxy : wl_proxy)
    (event fmt body : String) :
    ((proxy_log opts proxy event fmt body).out ≠ "" ↔
        should_emit opts.filters opts.inverse_filters proxy.cls event) ∧
      (proxy_log opts proxy event fmt body).out =
        (if should_emit opts.filters opts.inverse_filters proxy.cls event then
          log_header proxy event fmt ++ body
        else "") := by
  rw [proxy_log_eq]
  by_cases h : should_emit opts.filters opts.inverse_filters proxy.cls event
  · simp [h, log_header_ne_empty]
  · simp [h]

/-- C2: with the include list built by `add_filter` from `wl_seat` and the exclude
list built by `add_filter` from `wl_seat:name` (a rule without event name and a
rule with the event name `name`), every `wl_seat` object has its `capabilities`
event written, beginning with its header, and its `name` event suppressed. -/
theorem seat_include_exclude_end_to_end (state : wev_state K S) (seat : wl_proxy)
    (capabilities : Nat) (name : String)
    (hseat : seat.cls = "wl_seat")
    (hinc : add_filter [] "wl_seat" = some state.opts.filters)
    (hexc : add_filter [] "wl_seat:name" = some state.opts.inverse_filters) :
    state.opts.filters = [⟨"wl_seat", none⟩] ∧
      state.opts.inverse_filters = [⟨"wl_seat", some "name"⟩] ∧
      (∃ rest, (wl_seat_capabilities state seat capabilities).out
        = log_header seat "capabilities" "" ++ rest) ∧
      (wl_seat_capabilities state seat capabilities).out ≠ "" ∧
      (wl_seat_name state seat name).out = "" := by
  have h1 : add_filter [] "wl_seat" = some [⟨"wl_seat", none⟩] := by decide
  have h2 : add_filter [] "wl_seat:name" = some [⟨"wl_seat", some "name"⟩] := by decide
  rw [h1] at hinc
  rw [h2] at hexc
  have hf : state.opts.filters = [⟨"wl_seat", none⟩] := (Option.some.inj hinc).symm
  have hi : state.opts.inverse_filters = [⟨"wl_seat", some "name"⟩] := (Option.some.inj hexc).symm
  have hcap : should_emit state.opts.filters state.opts.inverse_filters seat.cls "capabilities" := by
    rw [hf, hi, hseat]; decide
  have hname : ¬ should_emit state.opts.filters state.opts.inverse_filters seat.cls "name" := by
    rw [hf, hi, hseat]; decide
  have hout : ∃ rest, (wl_seat_capabilities state seat capabilities).out
      = log_header seat "capabilities" "" ++ rest := by
    unfold wl_seat_capabilities
    simp only [proxy_log_eq, hcap, if_true, String.append_assoc]
    exact ⟨_, rfl⟩
  refine ⟨hf, hi, hout, ?_, ?_⟩
  · obtain ⟨rest, hrest⟩ := hout
    rw [hrest]
    exact log_header_ne_empty seat "capabilities" "" rest
  · unfold wl_seat_name
    exact proxy_log_out_suppressed _ _ _ _ _ hname

theorem seat_include_exclude_end_to_end_witness :
    seat_filtered_state.opts.filters = [⟨"wl_seat", none⟩] ∧
      seat_filtered_state.opts.inverse_filters = [⟨"wl_seat", some "name"⟩] ∧
      (∃ rest, (wl_seat_capabilities seat_filtered_state sample_seat 7).out
        = log_header sample_seat "capabilities" "" ++ rest) ∧
      (wl_seat_capabilities seat_filtered_state sample_seat 7).out ≠ "" ∧
      (wl_seat_name seat_filtered_state sample_seat "seat0").out = "" :=
  seat_include_exclude_end_to_end seat_filtered_state sample_seat 7 "seat0" (by decide)
    (by decide) (by decide)

set_option maxRecDepth 8192 in
/-- C3: for every filter configuration, proxy, event name and field text,
`proxy_log` writes nothing and returns 0 when the event is suppressed and
returns a non-zero count when it is written.  The handlers `wl_keyboard_key`,
`wl_keyboard_enter` and `wl_keyboard_modifiers`, which test `n != 0`, write
nothing at all when their event is suppressed, and when it is written they
write the event line followed by their detail lines: the symbol and UTF-8 line
of the key, one such line for each held key, and the three modifier lines with
the names of the set bits.  The last conjuncts give the text of one written
event of each kind, and of a suppressed one, on a sample keymap. -/
theorem proxy_log_return_gates_details (x : Extern K S) (state : wev_state K S)
    (proxy : wl_proxy) (event fmt body : String) (wl_keyboard surface : wl_proxy)
    (serial time key kstate : Nat) (keys : List Nat)
    (mods_depressed mods_latched mods_locked group stray : Nat) :
    (proxy_log state.opts proxy event fmt body =
        if should_emit state.opts.filters state.opts.inverse_filters proxy.cls event then
          ⟨(log_header proxy event fmt).length + body.length, log_header proxy event fmt ++ body⟩
        else ⟨0, ""⟩) ∧
      ((proxy_log state.opts proxy event fmt body).n ≠ 0 ↔
        should_emit state.opts.filters state.opts.inverse_filters proxy.cls event) ∧
      (wl_keyboard_key x state wl_keyboard serial time key kstate).out =
        (if should_emit state.opts.filters state.opts.inverse_filters wl_keyboard.cls "key" then
          (log_header wl_keyboard "key" "serial: %d; time: %d; key: %d; state: %d (%s)\n" ++
            ("serial: " ++ fmt_d serial ++ "; time: " ++ fmt_d time ++ "; key: " ++ fmt_d key ++
              "; state: " ++ fmt_d kstate ++ " (" ++ key_state_str kstate ++ ")\n")) ++
            (("                      " ++ "sym: " ++
                fmt_m12s (x.xkb_keysym_get_name
                  (x.xkb_state_key_get_one_sym state.xkb_state ((key + 8) % 2 ^ 32))) ++
                " (" ++ fmt_d (x.xkb_state_key_get_one_sym state.xkb_state ((key + 8) % 2 ^ 32)) ++
                "), ") ++
              ("utf8: \x27" ++
                x.xkb_state_key_get_utf8 state.xkb_state
                  (if kstate = WL_KEYBOARD_KEY_STATE_PRESSED then (key + 8) % 2 ^ 32 else 0) ++
                "\x27\n"))
        else "") ∧
      (wl_keyboard_enter x state wl_keyboard serial surface keys).out =
        (if should_emit state.opts.filters state.opts.inverse_filters wl_keyboard.cls "enter" then
          (log_header wl_keyboard "enter" "serial: %d; surface: %d\n" ++
            ("serial: " ++ fmt_d serial ++ "; surface: " ++ fmt_d surface.id ++ "\n")) ++
            String.join (keys.map (fun k =>
              ("                      " ++ "sym: " ++
                fmt_m12s (x.xkb_keysym_get_name
                  (x.xkb_state_key_get_one_sym state.xkb_state ((k + 8) % 2 ^ 32))) ++
                " (" ++ fmt_d (x.xkb_state_key_get_one_sym state.xkb_state ((k + 8) % 2 ^ 32)) ++
                "), ") ++
              ("utf8: \x27" ++ x.xkb_state_key_get_utf8 state.xkb_state ((k + 8) % 2 ^ 32) ++
                "\x27\n")))
        else "") ∧
      (wl_keyboard_modifiers x state wl_keyboard serial mods_depressed mods_latched mods_locked
          group stray).out =
        (if should_emit state.opts.filters state.opts.inverse_filters wl_keyboard.cls
            "modifiers" then
          (log_header wl_keyboard "modifiers" "serial: %d; group: %d\n" ++
            ("serial: " ++ fmt_d group ++ "; group: " ++ fmt_d stray ++ "\n")) ++
            ("                      " ++ "depressed: " ++ fmt_08X mods_depressed ++
              ((if mods_depressed ≠ 0 then ": " else "") ++
                String.join (((List.range 32).filter
                  (fun i => (mods_depressed >>> i) &&& 1 != 0)).map
                  (fun i => fmt_s (x.xkb_keymap_mod_get_name state.xkb_keymap i) ++ " ")) ++
                "\n") ++
              "                      " ++ "latched: " ++ fmt_08X mods_latched ++
              ((if mods_latched ≠ 0 then ": " else "") ++
                String.join (((List.range 32).filter
                  (fun i => (mods_latched >>> i) &&& 1 != 0)).map
                  (fun i => fmt_s (x.xkb_keymap_mod_get_name state.xkb_keymap i) ++ " ")) ++
                "\n") ++
              "                      " ++ "locked: " ++ fmt_08X mods_locked ++
              ((if mods_locked ≠ 0 then ": " else "") ++
                String.join (((List.range 32).filter
                  (fun i => (mods_locked >>> i) &&& 1 != 0)).map
                  (fun i => fmt_s (x.xkb_keymap_mod_get_name state.xkb_keymap i) ++ " ")) ++
                "\n"))
        else "") ∧
      (wl_keyboard_key sample_extern keyed_state sample_keyboard 1 2 30 1).out =
        "[05:     wl_keyboard] key: serial: 1; time: 2; key: 30; state: 1 (pressed)\n" ++
          "                      sym: a            (97), utf8: \x27a\x27\n" ∧
      (wl_keyboard_enter sample_extern keyed_state sample_keyboard 4 sample_surface [30, 31]).out =
        "[05:     wl_keyboard] enter: serial: 4; surface: 9\n" ++
          "                      sym: a            (97), utf8: \x27a\x27\n" ++
          "                      sym: NoSymbol     (0), utf8: \x27\x27\n" ∧
      (wl_keyboard_modifiers sample_extern keyed_state sample_keyboard 6 1 0 5 0 0).out =
        "[05:     wl_keyboard] modifiers: serial: 0; group: 0\n" ++
          "                      depressed: 00000001: Shift \n" ++
          "                      latched: 00000000\n" ++
          "                      locked: 00000005: Shift (null) \n" ∧
      (wl_keyboard_key sample_extern seat_filtered_state sample_keyboard 1 2 30 1).out = "" ∧
      (wl_keyboard_enter sample_extern seat_filtered_state sample_keyboard 4 sample_surface
        [30, 31]).out = "" ∧
      (wl_keyboard_modifiers sample_extern seat_filtered_state sample_keyboard 6 1 0 5 0 0).out
        = "" := by
  refine ⟨proxy_log_eq _ _ _ _ _, proxy_log_n_ne_zero _ _ _ _ _, ?_, ?_, ?_,
    by decide, by decide, by decide, by decide, by decide, by decide⟩
  · unfold wl_keyboard_key
    by_cases h : should_emit state.opts.filters state.opts.inverse_filters wl_keyboard.cls "key"
    · have hn : (wl_keyboard_key_log state.opts wl_keyboard serial time key kstate).n ≠ 0 :=
        (proxy_log_n_ne_zero _ _ _ _ _).mpr h
      simp only [hn, h, if_true, ne_eq, not_false_eq_true]
      simp only [wl_keyboard_key_log, proxy_log_eq, h, if_true, key_detail, sym_detail,
        utf8_detail, SPACER]
    · have hn : ¬ (wl_keyboard_key_log state.opts wl_keyboard serial time key kstate).n ≠ 0 :=
        fun hn => h ((proxy_log_n_ne_zero _ _ _ _ _).mp hn)
      have ho : (wl_keyboard_key_log state.opts wl_keyboard serial time key kstate).out = "" :=
        proxy_log_out_suppressed _ _ _ _ _ h
      simp only [hn, h, if_false, ho]
  · unfold wl_keyboard_enter
    by_cases h : should_emit state.opts.filters state.opts.inverse_filters wl_keyboard.cls "enter"
    · have hn : (wl_keyboard_enter_log state.opts wl_keyboard serial surface).n ≠ 0 :=
        (proxy_log_n_ne_zero _ _ _ _ _).mpr h
      simp only [hn, h, if_true, ne_eq, not_false_eq_true]
      simp only [wl_keyboard_enter_log, proxy_log_eq, h, if_true, enter_detail, key_detail,
        sym_detail, utf8_detail, SPACER]
    · have hn : ¬ (wl_keyboard_enter_log state.opts wl_keyboard serial surface).n ≠ 0 :=
        fun hn => h ((proxy_log_n_ne_zero _ _ _ _ _).mp hn)
      have ho : (wl_keyboard_enter_log state.opts wl_keyboard serial surface).out = "" :=
        proxy_log_out_suppressed _ _ _ _ _ h
      simp only [hn, h, if_false, ho]
  · unfold wl_keyboard_modifiers
    by_cases h : should_emit state.opts.filters state.opts.inverse_filters wl_keyboard.cls
        "modifiers"
    · have hn : (wl_keyboard_modifiers_log state.opts wl_keyboard group stray).n ≠ 0 :=
        (proxy_log_n_ne_zero _ _ _ _ _).mpr h
      simp only [hn, h, if_true, ne_eq, not_false_eq_true]
      simp only [wl_keyboard_modifiers_log, proxy_log_eq, h, if_true, modifiers_detail,
        print_modifiers, modifier_bits, SPACER, ne_eq]
    · have hn : ¬ (wl_keyboard_modifiers_log state.opts wl_keyboard group stray).n ≠ 0 :=
        fun hn => h ((proxy_log_n_ne_zero _ _ _ _ _).mp hn)
      have ho : (wl_keyboard_modifiers_log state.opts wl_keyboard group stray).out = "" :=
        proxy_log_out_suppressed _ _ _ _ _ h
      simp only [hn, h, if_false, ho]

/-! ## Key decoding -/

/-- C4: for every raw key code and every keymap state, the UTF-8 lookup of
`wl_keyboard_key` (made only when the event is written) is made at the null
code 0 unless the transition is pressed, and at `key + 8` when it is pressed;
so for a released key the lookup is at 0 and, the library giving no text at
the null code, the text between the quotes of the detail line is empty. -/
theorem release_utf8_lookup_uses_null_code (x : Extern K S) (state : wev_state K S)
    (wl_keyboard : wl_proxy) (serial time key kstate : Nat)
    (hnull : ∀ s, x.xkb_state_key_get_utf8 s 0 = "") :
    utf8_lookups (wl_keyboard_key x state wl_keyboard serial time key kstate).calls =
        (if should_emit state.opts.filters state.opts.inverse_filters wl_keyboard.cls "key" then
          [(state.xkb_state,
            if kstate = WL_KEYBOARD_KEY_STATE_PRESSED then (key + 8) % 2 ^ 32 else 0)]
        else []) ∧
      utf8_lookups (wl_keyboard_key x state wl_keyboard serial time key
          WL_KEYBOARD_KEY_STATE_RELEASED).calls =
        (if should_emit state.opts.filters state.opts.inverse_filters wl_keyboard.cls "key" then
          [(state.xkb_state, 0)]
        else []) ∧
      (wl_keyboard_key x state wl_keyboard serial time key WL_KEYBOARD_KEY_STATE_RELEASED).out =
        (if should_emit state.opts.filters state.opts.inverse_filters wl_keyboard.cls "key" then
          (wl_keyboard_key_log state.opts wl_keyboard serial time key
              WL_KEYBOARD_KEY_STATE_RELEASED).out ++
            sym_detail x state.xkb_state ((key + 8) % 2 ^ 32) ++ utf8_detail ""
        else "") := by
  have hgen : ∀ ks : Nat,
      utf8_lookups (wl_keyboard_key x state wl_keyboard serial time key ks).calls =
        (if should_emit state.opts.filters state.opts.inverse_filters wl_keyboard.cls "key" then
          [(state.xkb_state, if ks = WL_KEYBOARD_KEY_STATE_PRESSED then (key + 8) % 2 ^ 32 else 0)]
        else []) := by
    intro ks
    unfold wl_keyboard_key
    by_cases h : should_emit state.opts.filters state.opts.inverse_filters wl_keyboard.cls "key"
    · have hn : (wl_keyboard_key_log state.opts wl_keyboard serial time key ks).n ≠ 0 :=
        (proxy_log_n_ne_zero _ _ _ _ _).mpr h
      simp [h, hn, utf8_lookups, key_detail_calls]
    · have hn : ¬ (wl_keyboard_key_log state.opts wl_keyboard serial time key ks).n ≠ 0 :=
        fun hn => h ((proxy_log_n_ne_zero _ _ _ _ _).mp hn)
      simp only [hn, h, if_false]
      simp [utf8_lookups]
  have hrel : WL_KEYBOARD_KEY_STATE_RELEASED ≠ WL_KEYBOARD_KEY_STATE_PRESSED := by decide
  refine ⟨hgen kstate, ?_, ?_⟩
  · rw [hgen]
    simp [hrel]
  · unfold wl_keyboard_key
    by_cases h : should_emit state.opts.filters state.opts.inverse_filters wl_keyboard.cls "key"
    · have hn : (wl_keyboard_key_log state.opts wl_keyboard serial time key
          WL_KEYBOARD_KEY_STATE_RELEASED).n ≠ 0 := (proxy_log_n_ne_zero _ _ _ _ _).mpr h
      simp only [h, hn, if_true, hrel, if_false, key_detail, hnull, ne_eq, not_false_eq_true,
        String.append_assoc]
    · have hn : ¬ (wl_keyboard_key_log state.opts wl_keyboard serial time key
          WL_KEYBOARD_KEY_STATE_RELEASED).n ≠ 0 :=
        fun hn => h ((proxy_log_n_ne_zero _ _ _ _ _).mp hn)
      have ho : (wl_keyboard_key_log state.opts wl_keyboard serial time key
          WL_KEYBOARD_KEY_STATE_RELEASED).out = "" := proxy_log_out_suppressed _ _ _ _ _ h
      simp only [hn, h, if_false, ho]

theorem release_utf8_lookup_uses_null_code_witness :
    utf8_lookups (wl_keyboard_key sample_extern keyed_state sample_keyboard 1 2 30 1).calls =
        (if should_emit keyed_state.opts.filters keyed_state.opts.inverse_filters
            sample_keyboard.cls "key" then
          [(keyed_state.xkb_state,
            if 1 = WL_KEYBOARD_KEY_STATE_PRESSED then (30 + 8) % 2 ^ 32 else 0)]
        else []) ∧
      utf8_lookups (wl_keyboard_key sample_extern keyed_state sample_keyboard 1 2 30
          WL_KEYBOARD_KEY_STATE_RELEASED).calls =
        (if should_emit keyed_state.opts.filters keyed_state.opts.inverse_filters
            sample_keyboard.cls "key" then
          [(keyed_state.xkb_state, 0)]
        else []) ∧
      (wl_keyboard_key sample_extern keyed_state sample_keyboard 1 2 30
          WL_KEYBOARD_KEY_STATE_RELEASED).out =
        (if should_emit keyed_state.opts.filters keyed_state.opts.inverse_filters
            sample_keyboard.cls "key" then
          (wl_keyboard_key_log keyed_state.opts sample_keyboard 1 2 30
              WL_KEYBOARD_KEY_STATE_RELEASED).out ++
            sym_detail sample_extern keyed_state.xkb_state ((30 + 8) % 2 ^ 32) ++ utf8_detail ""
        else "") :=
  release_utf8_lookup_uses_null_code sample_extern keyed_state sample_keyboard 1 2 30 1
    (fun s => by cases s <;> rfl)

/-- C5: for every raw key code, the symbol lookup of `wl_keyboard_key` is made at
`key + 8` in 32-bit unsigned arithmetic, once, whatever the transition and
whether or not the event is written; and the symbol lookups of
`wl_keyboard_enter`, made when the event is written, are made at `*key + 8` for
the held keys in order, as are its UTF-8 lookups. -/
theorem symbol_lookup_uses_offset_code (x : Extern K S) (state : wev_state K S)
    (wl_keyboard surface : wl_proxy) (serial time key kstate : Nat) (keys : List Nat) :
    sym_lookups (wl_keyboard_key x state wl_keyboard serial time key kstate).calls =
        [(state.xkb_state, (key + 8) % 2 ^ 32)] ∧
      sym_lookups (wl_keyboard_enter x state wl_keyboard serial surface keys).calls =
        (if should_emit state.opts.filters state.opts.inverse_filters wl_keyboard.cls "enter" then
          keys.map (fun k => (state.xkb_state, (k + 8) % 2 ^ 32))
        else []) ∧
      utf8_lookups (wl_keyboard_enter x state wl_keyboard serial surface keys).calls =
        (if should_emit state.opts.filters state.opts.inverse_filters wl_keyboard.cls "enter" then
          keys.map (fun k => (state.xkb_state, (k + 8) % 2 ^ 32))
        else []) := by
  refine ⟨sym_lookups_key x state wl_keyboard serial time key kstate, ?_, ?_⟩
  · unfold wl_keyboard_enter
    by_cases h : should_emit state.opts.filters state.opts.inverse_filters wl_keyboard.cls "enter"
    · have hn : (wl_keyboard_enter_log state.opts wl_keyboard serial surface).n ≠ 0 :=
        (proxy_log_n_ne_zero _ _ _ _ _).mpr h
      simp only [h, hn, if_true, ne_eq, not_false_eq_true]
      exact sym_lookups_enter x state.xkb_state keys
    · have hn : ¬ (wl_keyboard_enter_log state.opts wl_keyboard serial surface).n ≠ 0 :=
        fun hn => h ((proxy_log_n_ne_zero _ _ _ _ _).mp hn)
      simp only [hn, h, if_false]
      simp [sym_lookups]
  · unfold wl_keyboard_enter
    by_cases h : should_emit state.opts.filters state.opts.inverse_filters wl_keyboard.cls "enter"
    · have hn : (wl_keyboard_enter_log state.opts wl_keyboard serial surface).n ≠ 0 :=
        (proxy_log_n_ne_zero _ _ _ _ _).mpr h
      simp only [h, hn, if_true, ne_eq, not_false_eq_true]
      exact utf8_lookups_enter x state.xkb_state keys
    · have hn : ¬ (wl_keyboard_enter_log state.opts wl_keyboard serial surface).n ≠ 0 :=
        fun hn => h ((proxy_log_n_ne_zero _ _ _ _ _).mp hn)
      simp only [hn, h, if_false]
      simp [utf8_lookups]

/-! ## Offer tracking -/

/-- C6: starting from an empty selection slot, for two distinct offers `a` and `b`,
the events selection(`a`), selection(`b`) make exactly one destroy call, on
`a`, and none on `b`, and leave `b` in the slot; selection(none) after them
makes exactly one destroy call, on `b`, and leaves the slot empty. -/
theorem selection_replacement_destroys_previous_once (state : wev_state K S)
    (device a b : wl_proxy) (hab : a ≠ b) (hempty : state.selection = none) :
    destroys ((wl_data_device_selection state device (some a)).calls ++
        (wl_data_device_selection (wl_data_device_selection state device (some a)).state
          device (some b)).calls) = [some a] ∧
      (destroys ((wl_data_device_selection state device (some a)).calls ++
        (wl_data_device_selection (wl_data_device_selection state device (some a)).state
          device (some b)).calls)).count (some b) = 0 ∧
      (wl_data_device_selection (wl_data_device_selection state device (some a)).state
        device (some b)).state.selection = some b ∧
      destroys (wl_data_device_selection
        (wl_data_device_selection (wl_data_device_selection state device (some a)).state
          device (some b)).state device none).calls = [some b] ∧
      (wl_data_device_selection
        (wl_data_device_selection (wl_data_device_selection state device (some a)).state
          device (some b)).state device none).state.selection = none := by
  have hne : (some a : Option wl_proxy) ≠ some b := fun h => hab (Option.some.inj h)
  refine ⟨?_, ?_, ?_, ?_, ?_⟩
  · simp [wl_data_device_selection, hempty, destroys]
  · simp only [wl_data_device_selection, hempty, destroys]
    simp only [List.nil_append, List.filterMap_cons, List.filterMap_nil]
    rw [List.count_eq_zero]
    intro hmem
    exact hne (List.mem_singleton.mp hmem).symm
  · simp [wl_data_device_selection]
  · simp [wl_data_device_selection, destroys]
  · simp [wl_data_device_selection]

theorem selection_replacement_destroys_previous_once_witness :
    destroys ((wl_data_device_selection keyed_state sample_device (some offer_a)).calls ++
        (wl_data_device_selection
          (wl_data_device_selection keyed_state sample_device (some offer_a)).state
          sample_device (some offer_b)).calls) = [some offer_a] ∧
      (destroys ((wl_data_device_selection keyed_state sample_device (some offer_a)).calls ++
        (wl_data_device_selection
          (wl_data_device_selection keyed_state sample_device (some offer_a)).state
          sample_device (some offer_b)).calls)).count (some offer_b) = 0 ∧
      (wl_data_device_selection
        (wl_data_device_selection keyed_state sample_device (some offer_a)).state
        sample_device (some offer_b)).state.selection = some offer_b ∧
      destroys (wl_data_device_selection
        (wl_data_device_selection
          (wl_data_device_selection keyed_state sample_device (some offer_a)).state
          sample_device (some offer_b)).state sample_device none).calls = [some offer_b] ∧
      (wl_data_device_selection
        (wl_data_device_selection
          (wl_data_device_selection keyed_state sample_device (some offer_a)).state
          sample_device (some offer_b)).state sample_device none).state.selection = none :=
  selection_replacement_destroys_previous_once keyed_state sample_device offer_a offer_b
    (by decide) rfl

/-- C7: for every state holding a drag handle `h`, drop followed by leave makes
exactly one destroy call in total, on `h`; the leave after the drop makes no
call at all, leaves the drag slot empty and leaves the state as the drop left
it; and a leave on an empty drag slot never changes the state or makes a
call. -/
theorem leave_after_drop_destroys_nothing (state : wev_state K S) (device h : wl_proxy)
    (hheld : state.dnd = some h) :
    destroys ((wl_data_device_drop state device).calls ++
        (wl_data_device_leave (wl_data_device_drop state device).state device).calls)
        = [some h] ∧
      (wl_data_device_leave (wl_data_device_drop state device).state device).calls = [] ∧
      (wl_data_device_leave (wl_data_device_drop state device).state device).state.dnd = none ∧
      (wl_data_device_leave (wl_data_device_drop state device).state device).state
        = (wl_data_device_drop state device).state ∧
      (∀ w : wev_state K S, w.dnd = none →
        (wl_data_device_leave w device).state = w ∧ (wl_data_device_leave w device).calls = []) := by
  have hleave : ∀ w : wev_state K S, w.dnd = none →
      (wl_data_device_leave w device).state = w ∧ (wl_data_device_leave w device).calls = [] := by
    intro w hw
    unfold wl_data_device_leave
    simp [hw]
  have hd : (wl_data_device_drop state device).state.dnd = none := by
    simp [wl_data_device_drop]
  obtain ⟨hs, hc⟩ := hleave _ hd
  refine ⟨?_, hc, ?_, hs, hleave⟩
  · rw [hc]
    simp [wl_data_device_drop, destroys, hheld]
  · rw [hs]; exact hd

theorem leave_after_drop_destroys_nothing_witness :
    destroys ((wl_data_device_drop { keyed_state with dnd := some offer_a } sample_device).calls ++
        (wl_data_device_leave
          (wl_data_device_drop { keyed_state with dnd := some offer_a } sample_device).state
          sample_device).calls) = [some offer_a] ∧
      (wl_data_device_leave
        (wl_data_device_drop { keyed_state with dnd := some offer_a } sample_device).state
        sample_device).calls = [] ∧
      (wl_data_device_leave
        (wl_data_device_drop { keyed_state with dnd := some offer_a } sample_device).state
        sample_device).state.dnd = none ∧
      (wl_data_device_leave
        (wl_data_device_drop { keyed_state with dnd := some offer_a } sample_device).state
        sample_device).state
        = (wl_data_device_drop { keyed_state with dnd := some offer_a } sample_device).state ∧
      (∀ w : wev_state String (String × Nat), w.dnd = none →
        (wl_data_device_leave w sample_device).state = w ∧
          (wl_data_device_leave w sample_device).calls = []) :=
  leave_after_drop_destroys_nothing { keyed_state with dnd := some offer_a } sample_device
    offer_a rfl

theorem selection_unchanged_of_not_selection (x : Extern K S) (state : wev_state K S)
    (device : wl_proxy) (e : data_device_event) (hne : ∀ id, e ≠ .selection id) :
    (data_device_dispatch x state device e).state.selection = state.selection := by
  cases e with
  | data_offer id => rfl
  | enter serial surface px py id => rfl
  | leave =>
    simp only [data_device_dispatch, wl_data_device_leave]
    cases state.dnd <;> rfl
  | motion serial px py => rfl
  | drop => rfl
  | selection id => exact absurd rfl (hne id)

theorem one_live_selection_step (x : Extern K S) (device : wl_proxy) (r : Run K S)
    (e : data_device_event) (hr : one_live_selection r) :
    one_live_selection (Run.step x device r e) := by
  intro h hvis hnot
  simp only [Run.step, List.mem_append, List.mem_singleton, not_or] at hvis hnot ⊢
  obtain ⟨w, hw, hsel⟩ := hvis
  rcases hw with hw | hw
  · have hold : r.state.selection = some h := hr h ⟨w, hw, hsel⟩ hnot.1
    by_cases hs : ∃ id, e = .selection id
    · obtain ⟨id, rfl⟩ := hs
      exfalso
      apply hnot.2
      simp [data_device_dispatch, wl_data_device_selection, hold]
    · rw [selection_unchanged_of_not_selection x r.state device e
        (fun id hid => hs ⟨id, hid⟩)]
      exact hold
  · rw [← hw]; exact hsel

theorem one_live_drag_step (x : Extern K S) (device : wl_proxy) (r : Run K S)
    (e : data_device_event) (hr : one_live_drag r)
    (hguard : (∃ serial surface px py id, e = .enter serial surface px py id) →
      r.state.dnd = none) :
    one_live_drag (Run.step x device r e) := by
  intro h hvis hnot
  simp only [Run.step, List.mem_append, List.mem_singleton, not_or] at hvis hnot ⊢
  obtain ⟨w, hw, hdnd⟩ := hvis
  rcases hw with hw | hw
  · have hold : r.state.dnd = some h := hr h ⟨w, hw, hdnd⟩ hnot.1
    cases e with
    | data_offer id => exact hold
    | enter serial surface px py id =>
      have hnone := hguard ⟨serial, surface, px, py, id, rfl⟩
      rw [hnone] at hold
      exact absurd hold (by simp)
    | leave =>
      exfalso
      apply hnot.2
      simp [data_device_dispatch, wl_data_device_leave, hold]
    | motion serial px py => exact hold
    | drop =>
      exfalso
      apply hnot.2
      simp [data_device_dispatch, wl_data_device_drop, hold]
    | selection id => exact hold
  · rw [← hw]; exact hdnd

theorem one_live_selection_foldl (x : Extern K S) (device : wl_proxy)
    (events : List data_device_event) (r : Run K S) (hr : one_live_selection r) :
    one_live_selection (events.foldl (Run.step x device) r) := by
  induction events generalizing r with
  | nil => exact hr
  | cons e es ih => exact ih _ (one_live_selection_step x device r e hr)

theorem one_live_drag_foldl (x : Extern K S) (device : wl_proxy)
    (events : List data_device_event) (r : Run K S) (hr : one_live_drag r)
    (hord : enters_on_empty x device r.state events = true) :
    one_live_drag (events.foldl (Run.step x device) r) := by
  induction events generalizing r with
  | nil => exact hr
  | cons e es ih =>
    simp only [enters_on_empty, Bool.and_eq_true] at hord
    refine ih _ (one_live_drag_step x device r e hr ?_) hord.2
    rintro ⟨serial, surface, px, py, id, rfl⟩
    simpa using hord.1

theorem enters_on_empty_append_left (x : Extern K S) (device : wl_proxy)
    (events rest : List data_device_event) (state : wev_state K S)
    (h : enters_on_empty x device state (events ++ rest) = true) :
    enters_on_empty x device state events = true := by
  induction events generalizing state with
  | nil => rfl
  | cons e es ih =>
    simp only [List.cons_append, enters_on_empty, Bool.and_eq_true] at h ⊢
    exact ⟨h.1, ih _ h.2⟩

/-- C8, the claim as stated, fails: after enter(`offer_a`), enter(`offer_b`) from
the initial state the first offer was held in the drag slot, has received no
destroy call and is not the offer the slot holds. -/
theorem enter_twice_leaves_two_live_drag_handles :
    ¬ (one_live_selection (run_data_device sample_extern sample_device
          (wev_state.init String (String × Nat))
          [.enter 1 sample_surface 0 0 offer_a, .enter 2 sample_surface 0 0 offer_b]) ∧
        one_live_drag (run_data_device sample_extern sample_device
          (wev_state.init String (String × Nat))
          [.enter 1 sample_surface 0 0 offer_a, .enter 2 sample_surface 0 0 offer_b])) := by
  rintro ⟨_, h⟩
  have hb := h offer_a
    ⟨(wl_data_device_enter sample_extern (wev_state.init String (String × Nat)) sample_device 1
        sample_surface 0 0 offer_a).state,
      by simp [run_data_device, Run.step, Run.start, data_device_dispatch],
      by simp [wl_data_device_enter]⟩
    (by simp [run_data_device, Run.step, Run.start, data_device_dispatch, wl_data_device_enter])
  simp only [run_data_device, Run.step, Run.start, data_device_dispatch, wl_data_device_enter,
    List.foldl_cons, List.foldl_nil] at hb
  exact absurd (Option.some.inj hb) (by decide)

/-- C8, amended: for every sequence of data-device events from the initial state
and after each of its events, every handle that was held in the selection slot
and has received no destroy call is the one the selection slot holds; and when
each enter of the sequence arrives while the drag slot is empty, every handle
that was held in the drag slot and has received no destroy call is the one the
drag slot holds. -/
theorem offer_tracker_one_live_handle (x : Extern K S) (device : wl_proxy)
    (events rest : List data_device_event) :
    one_live_selection (run_data_device x device (wev_state.init K S) events) ∧
      (enters_on_empty x device (wev_state.init K S) (events ++ rest) = true →
        one_live_drag (run_data_device x device (wev_state.init K S) events)) := by
  have hsel0 : one_live_selection (Run.start (wev_state.init K S)) := by
    intro h hvis _
    simp only [Run.start, List.mem_singleton] at hvis ⊢
    obtain ⟨w, rfl, hw⟩ := hvis
    exact hw
  have hdnd0 : one_live_drag (Run.start (wev_state.init K S)) := by
    intro h hvis _
    simp only [Run.start, List.mem_singleton] at hvis ⊢
    obtain ⟨w, rfl, hw⟩ := hvis
    exact hw
  refine ⟨one_live_selection_foldl x device events _ hsel0, fun hord => ?_⟩
  exact one_live_drag_foldl x device events _ hdnd0
    (enters_on_empty_append_left x device events rest _ hord)

theorem offer_tracker_one_live_handle_witness :
    one_live_selection (run_data_device sample_extern sample_device
        (wev_state.init String (String × Nat))
        [.selection (some offer_a), .enter 1 sample_surface 0 0 offer_b, .drop, .leave]) ∧
      one_live_drag (run_data_device sample_extern sample_device
        (wev_state.init String (String × Nat))
        [.selection (some offer_a), .enter 1 sample_surface 0 0 offer_b, .drop, .leave]) :=
  ⟨(offer_tracker_one_live_handle sample_extern sample_device
      [.selection (some offer_a), .enter 1 sample_surface 0 0 offer_b, .drop, .leave]
      [.enter 2 sample_surface 0 0 offer_a, .leave]).1,
    (offer_tracker_one_live_handle sample_extern sample_device
      [.selection (some offer_a), .enter 1 sample_surface 0 0 offer_b, .drop, .leave]
      [.enter 2 sample_surface 0 0 offer_a, .leave]).2 (by decide)⟩

/-! ## Keymap installation -/

theorem keymap_xkb_v1_state (x : Extern K S) (state : wev_state K S) (wl_keyboard : wl_proxy)
    (fd : Int) (size : Nat) (bytes : String) :
    (wl_keyboard_keymap x state wl_keyboard WL_KEYBOARD_KEYMAP_FORMAT_XKB_V1 fd size
        (some bytes)).state =
      { state with
        xkb_keymap := x.xkb_keymap_new_from_string bytes,
        xkb_state := x.xkb_state_new (x.xkb_keymap_new_from_string bytes) } := by
  simp [wl_keyboard_keymap]

theorem keymap_other_state (x : Extern K S) (state : wev_state K S) (wl_keyboard : wl_proxy)
    (format : Nat) (fd : Int) (size : Nat) (map_shm : Option String)
    (h : format ≠ WL_KEYBOARD_KEYMAP_FORMAT_XKB_V1 ∨ map_shm = none) :
    (wl_keyboard_keymap x state wl_keyboard format fd size map_shm).state = state := by
  unfold wl_keyboard_keymap
  cases map_shm with
  | none => rfl
  | some bytes =>
    rcases h with h | h
    · simp [h]
    · exact absurd h (by simp)

theorem enter_state (x : Extern K S) (state : wev_state K S) (wl_keyboard : wl_proxy)
    (serial : Nat) (surface : wl_proxy) (keys : List Nat) :
    (wl_keyboard_enter x state wl_keyboard serial surface keys).state = state := by
  unfold wl_keyboard_enter
  by_cases hn : (wl_keyboard_enter_log state.opts wl_keyboard serial surface).n ≠ 0
  · simp [hn]
  · simp only [hn, if_false]

theorem key_state (x : Extern K S) (state : wev_state K S) (wl_keyboard : wl_proxy)
    (serial time key kstate : Nat) :
    (wl_keyboard_key x state wl_keyboard serial time key kstate).state = state := by
  unfold wl_keyboard_key
  by_cases hn : (wl_keyboard_key_log state.opts wl_keyboard serial time key kstate).n ≠ 0
  · simp [hn]
  · simp only [hn, if_false]

theorem modifiers_state (x : Extern K S) (state : wev_state K S) (wl_keyboard : wl_proxy)
    (serial d l k group stray : Nat) :
    (wl_keyboard_modifiers x state wl_keyboard serial d l k group stray).state =
      { state with
        xkb_state := state.xkb_state.map (fun s => x.xkb_state_update_mask s d l k 0 0 group) } := by
  unfold wl_keyboard_modifiers
  by_cases hn : (wl_keyboard_modifiers_log state.opts wl_keyboard group stray).n ≠ 0
  · simp [hn]
  · simp only [hn, if_false]

theorem derived_from_map_update (x : Extern K S) (keymap : Option K) (st : Option S)
    (d l k dl ll g : Nat) (h : derived_from x keymap st) :
    derived_from x keymap (st.map (fun s => x.xkb_state_update_mask s d l k dl ll g)) := by
  cases st with
  | none => exact h
  | some s => exact derived_from.update s d l k dl ll g h

theorem paired_step (x : Extern K S) (wl_keyboard : wl_proxy) (state : wev_state K S)
    (e : keyboard_event) (h : paired x state) :
    paired x (keyboard_dispatch x state wl_keyboard e).state := by
  cases e with
  | keymap format fd size map_shm =>
    simp only [keyboard_dispatch]
    by_cases hf : format ≠ WL_KEYBOARD_KEYMAP_FORMAT_XKB_V1 ∨ map_shm = none
    · rw [keymap_other_state x state wl_keyboard format fd size map_shm hf]
      exact h
    · simp only [not_or, not_not] at hf
      obtain ⟨rfl, hm⟩ := hf
      cases map_shm with
      | none => exact absurd rfl hm
      | some bytes =>
        rw [keymap_xkb_v1_state]
        exact Or.inr derived_from.fresh
  | enter serial surface keys =>
    simp only [keyboard_dispatch, enter_state]
    exact h
  | key serial time key kstate =>
    simp only [keyboard_dispatch, key_state]
    exact h
  | modifiers serial d l k group stray =>
    simp only [keyboard_dispatch, modifiers_state]
    rcases h with ⟨hk, hs⟩ | h
    · exact Or.inl ⟨hk, by simp [hs]⟩
    · exact Or.inr (derived_from_map_update x _ _ d l k 0 0 group h)

theorem paired_run (x : Extern K S) (wl_keyboard : wl_proxy) (events : List keyboard_event)
    (state : wev_state K S) (h : paired x state) :
    paired x (run_keyboard x wl_keyboard state events) := by
  induction events generalizing state with
  | nil => exact h
  | cons e es ih => exact ih _ (paired_step x wl_keyboard state e h)

theorem derived_run_without_keymap (x : Extern K S) (wl_keyboard : wl_proxy)
    (events : List keyboard_event) (state : wev_state K S) (keymap : Option K)
    (hk : state.xkb_keymap = keymap) (hs : derived_from x keymap state.xkb_state) :
    (run_keyboard x wl_keyboard state
        (events.filter (fun e => !e.is_keymap))).xkb_keymap = keymap ∧
      derived_from x keymap (run_keyboard x wl_keyboard state
        (events.filter (fun e => !e.is_keymap))).xkb_state := by
  induction events generalizing state with
  | nil => exact ⟨hk, hs⟩
  | cons e es ih =>
    cases e with
    | keymap format fd size map_shm =>
      simpa [keyboard_event.is_keymap] using ih state hk hs
    | enter serial surface keys =>
      simp only [keyboard_event.is_keymap, Bool.not_false, List.filter_cons_of_pos,
        run_keyboard, List.foldl_cons, keyboard_dispatch, enter_state]
      exact ih state hk hs
    | key serial time key kstate =>
      simp only [keyboard_event.is_keymap, Bool.not_false, List.filter_cons_of_pos,
        run_keyboard, List.foldl_cons, keyboard_dispatch, key_state]
      exact ih state hk hs
    | modifiers serial d l k group stray =>
      simp only [keyboard_event.is_keymap, Bool.not_false, List.filter_cons_of_pos,
        run_keyboard, List.foldl_cons, keyboard_dispatch, modifiers_state]
      exact ih _ hk (derived_from_map_update x _ _ d l k 0 0 group hs)

/-- C9: for every keymap-update event whose format tag is not the XKB v1 text
format, `wl_keyboard_keymap` makes no call that compiles a keymap or creates a
state, and returns with the whole state, the stored keymap and the stored live
state included, exactly as it was before the event. -/
theorem keymap_other_format_keeps_pair (x : Extern K S) (state : wev_state K S)
    (wl_keyboard : wl_proxy) (format : Nat) (fd : Int) (size : Nat) (map_shm : Option String)
    (hformat : format ≠ WL_KEYBOARD_KEYMAP_FORMAT_XKB_V1) :
    (wl_keyboard_keymap x state wl_keyboard format fd size map_shm).calls.filter is_compile = [] ∧
      (wl_keyboard_keymap x state wl_keyboard format fd size map_shm).state = state ∧
      (wl_keyboard_keymap x state wl_keyboard format fd size map_shm).state.xkb_keymap
        = state.xkb_keymap ∧
      (wl_keyboard_keymap x state wl_keyboard format fd size map_shm).state.xkb_state
        = state.xkb_state := by
  have hs := keymap_other_state x state wl_keyboard format fd size map_shm (Or.inl hformat)
  refine ⟨?_, hs, by rw [hs], by rw [hs]⟩
  unfold wl_keyboard_keymap
  cases map_shm with
  | none => simp [is_compile]
  | some bytes =>
    cases hd : state.opts.dump_map <;> simp [hformat, is_compile]

theorem keymap_other_format_keeps_pair_witness :
    (wl_keyboard_keymap sample_extern keyed_state sample_keyboard
        WL_KEYBOARD_KEYMAP_FORMAT_NO_KEYMAP 4 0 (some "")).calls.filter is_compile = [] ∧
      (wl_keyboard_keymap sample_extern keyed_state sample_keyboard
        WL_KEYBOARD_KEYMAP_FORMAT_NO_KEYMAP 4 0 (some "")).state = keyed_state ∧
      (wl_keyboard_keymap sample_extern keyed_state sample_keyboard
        WL_KEYBOARD_KEYMAP_FORMAT_NO_KEYMAP 4 0 (some "")).state.xkb_keymap
        = keyed_state.xkb_keymap ∧
      (wl_keyboard_keymap sample_extern keyed_state sample_keyboard
        WL_KEYBOARD_KEYMAP_FORMAT_NO_KEYMAP 4 0 (some "")).state.xkb_state
        = keyed_state.xkb_state :=
  keymap_other_format_keeps_pair sample_extern keyed_state sample_keyboard
    WL_KEYBOARD_KEYMAP_FORMAT_NO_KEYMAP 4 0 (some "") (by decide)

/-- C10: after every sequence of keyboard events from the initial state the stored
keymap and live state are a matched pair (both absent, or the state derived
from exactly the stored keymap).  A keymap update in XKB v1 format with mapped
bytes `bytes` stores the compilation of `bytes` and a fresh state of it; after
any later events other than keymap updates the stored keymap is still that
compilation, the stored state is derived from it, and the symbol lookup of a
key event is made on that state. -/
theorem keymap_state_pairing (x : Extern K S) (wl_keyboard : wl_proxy)
    (events later : List keyboard_event) (state : wev_state K S) (fd : Int) (size : Nat)
    (bytes : String) (serial time key kstate : Nat) :
    paired x (run_keyboard x wl_keyboard (wev_state.init K S) events) ∧
      (wl_keyboard_keymap x state wl_keyboard WL_KEYBOARD_KEYMAP_FORMAT_XKB_V1 fd size
        (some bytes)).state.xkb_keymap = x.xkb_keymap_new_from_string bytes ∧
      (wl_keyboard_keymap x state wl_keyboard WL_KEYBOARD_KEYMAP_FORMAT_XKB_V1 fd size
        (some bytes)).state.xkb_state = x.xkb_state_new (x.xkb_keymap_new_from_string bytes) ∧
      (run_keyboard x wl_keyboard
        (wl_keyboard_keymap x state wl_keyboard WL_KEYBOARD_KEYMAP_FORMAT_XKB_V1 fd size
          (some bytes)).state
        (later.filter (fun e => !e.is_keymap))).xkb_keymap
          = x.xkb_keymap_new_from_string bytes ∧
      derived_from x (x.xkb_keymap_new_from_string bytes)
        (run_keyboard x wl_keyboard
          (wl_keyboard_keymap x state wl_keyboard WL_KEYBOARD_KEYMAP_FORMAT_XKB_V1 fd size
            (some bytes)).state
          (later.filter (fun e => !e.is_keymap))).xkb_state ∧
      sym_lookups (wl_keyboard_key x
          (run_keyboard x wl_keyboard
            (wl_keyboard_keymap x state wl_keyboard WL_KEYBOARD_KEYMAP_FORMAT_XKB_V1 fd size
              (some bytes)).state
            (later.filter (fun e => !e.is_keymap)))
          wl_keyboard serial time key kstate).calls =
        [((run_keyboard x wl_keyboard
            (wl_keyboard_keymap x state wl_keyboard WL_KEYBOARD_KEYMAP_FORMAT_XKB_V1 fd size
              (some bytes)).state
            (later.filter (fun e => !e.is_keymap))).xkb_state, (key + 8) % 2 ^ 32)] := by
  have hinit : paired x (wev_state.init K S) := Or.inl ⟨rfl, rfl⟩
  have hk : (wl_keyboard_keymap x state wl_keyboard WL_KEYBOARD_KEYMAP_FORMAT_XKB_V1 fd size
      (some bytes)).state.xkb_keymap = x.xkb_keymap_new_from_string bytes := by
    rw [keymap_xkb_v1_state]
  have hs : (wl_keyboard_keymap x state wl_keyboard WL_KEYBOARD_KEYMAP_FORMAT_XKB_V1 fd size
      (some bytes)).state.xkb_state = x.xkb_state_new (x.xkb_keymap_new_from_string bytes) := by
    rw [keymap_xkb_v1_state]
  have hd : derived_from x (x.xkb_keymap_new_from_string bytes)
      (wl_keyboard_keymap x state wl_keyboard WL_KEYBOARD_KEYMAP_FORMAT_XKB_V1 fd size
        (some bytes)).state.xkb_state := by
    rw [hs]; exact derived_from.fresh
  obtain ⟨h1, h2⟩ := derived_run_without_keymap x wl_keyboard later _ _ hk hd
  exact ⟨paired_run x wl_keyboard events _ hinit, hk, hs, h1, h2,
    sym_lookups_key x _ wl_keyboard serial time key kstate⟩

/-! ## The required objects -/

theorem required_loop_first_present (ptr : wl_proxy) (entries : List (String × Option wl_proxy)) :
    required_loop (some ptr) entries = check_result.proceed := by
  induction entries with
  | nil => rfl
  | cons entry rest ih => simp [required_loop, ih]

/-- C11, what the code does: the check in `main` goes on exactly when
`wl_compositor` is bound, whatever the other four pointers are, and exits with
code 1 naming `wl_compositor` otherwise; so in the state reached when the
registry announces every required class except `wl_seat`, the seat pointer is
null and the check goes on instead of exiting with code 1. -/
theorem required_check_tests_first_entry_only (state : wev_state K S) :
    main_required_check state =
        (if state.compositor = none then
          check_result.exit 1 "wl_compositor is required but is not present.\n"
        else check_result.proceed) ∧
      seatless_state.seat = none ∧
      main_required_check seatless_state = check_result.proceed := by
  refine ⟨?_, by decide, by decide⟩
  unfold main_required_check required
  cases hc : state.compositor with
  | none => simp [required_loop]
  | some ptr => simp [required_loop_first_present]

/-! ## Key events without a keymap -/

/-- C12, the claim as stated, fails: in the initial state, with no keymap and no
live state installed, a key event makes a symbol lookup and a UTF-8 lookup on
the absent state. -/
theorem key_without_keymap_reaches_lookup :
    ¬ (sym_lookups (wl_keyboard_key sample_extern (wev_state.init String (String × Nat))
          sample_keyboard 1 2 30 WL_KEYBOARD_KEY_STATE_PRESSED).calls = [] ∧
        utf8_lookups (wl_keyboard_key sample_extern (wev_state.init String (String × Nat))
          sample_keyboard 1 2 30 WL_KEYBOARD_KEY_STATE_PRESSED).calls = []) := by
  decide

/-- C12, amended: for every key event handled while no live state is installed, the
event is still logged, by the rule that holds with a state installed: its
header line is written exactly when the filters pass it.  The handler does not
test the stored state: it makes its symbol lookup on the absent state at
`key + 8`, and, when the event is written, its UTF-8 lookup on the absent
state too, and prints the detail text the library gives for them. -/
theorem key_without_keymap_still_logged (x : Extern K S) (state : wev_state K S)
    (wl_keyboard : wl_proxy) (serial time key kstate : Nat)
    (habsent : state.xkb_state = none) :
    (wl_keyboard_key_log state.opts wl_keyboard serial time key kstate).out =
        (if should_emit state.opts.filters state.opts.inverse_filters wl_keyboard.cls "key" then
          log_header wl_keyboard "key" "serial: %d; time: %d; key: %d; state: %d (%s)\n" ++
            ("serial: " ++ fmt_d serial ++ "; time: " ++ fmt_d time ++ "; key: " ++ fmt_d key ++
              "; state: " ++ fmt_d kstate ++ " (" ++ key_state_str kstate ++ ")\n")
        else "") ∧
      (wl_keyboard_key x state wl_keyboard serial time key kstate).out =
        (if should_emit state.opts.filters state.opts.inverse_filters wl_keyboard.cls "key" then
          (wl_keyboard_key_log state.opts wl_keyboard serial time key kstate).out ++
            key_detail x none ((key + 8) % 2 ^ 32)
              (if kstate = WL_KEYBOARD_KEY_STATE_PRESSED then (key + 8) % 2 ^ 32 else 0)
        else "") ∧
      sym_lookups (wl_keyboard_key x state wl_keyboard serial time key kstate).calls =
        [(none, (key + 8) % 2 ^ 32)] ∧
      utf8_lookups (wl_keyboard_key x state wl_keyboard serial time key kstate).calls =
        (if should_emit state.opts.filters state.opts.inverse_filters wl_keyboard.cls "key" then
          [(none, if kstate = WL_KEYBOARD_KEY_STATE_PRESSED then (key + 8) % 2 ^ 32 else 0)]
        else []) := by
  have hlog : (wl_keyboard_key_log state.opts wl_keyboard serial time key kstate).out =
      (if should_emit state.opts.filters state.opts.inverse_filters wl_keyboard.cls "key" then
        log_header wl_keyboard "key" "serial: %d; time: %d; key: %d; state: %d (%s)\n" ++
          ("serial: " ++ fmt_d serial ++ "; time: " ++ fmt_d time ++ "; key: " ++ fmt_d key ++
            "; state: " ++ fmt_d kstate ++ " (" ++ key_state_str kstate ++ ")\n")
      else "") := by
    unfold wl_keyboard_key_log
    rw [proxy_log_eq]
    by_cases h : should_emit state.opts.filters state.opts.inverse_filters wl_keyboard.cls "key"
    · simp only [h, if_true]
    · simp only [h, if_false]
  have hsym := sym_lookups_key x state wl_keyboard serial time key kstate
  rw [habsent] at hsym
  refine ⟨hlog, ?_, hsym, ?_⟩
  · unfold wl_keyboard_key
    by_cases h : should_emit state.opts.filters state.opts.inverse_filters wl_keyboard.cls "key"
    · have hn : (wl_keyboard_key_log state.opts wl_keyboard serial time key kstate).n ≠ 0 :=
        (proxy_log_n_ne_zero _ _ _ _ _).mpr h
      simp [h, hn, habsent]
    · have hn : ¬ (wl_keyboard_key_log state.opts wl_keyboard serial time key kstate).n ≠ 0 :=
        fun hn => h ((proxy_log_n_ne_zero _ _ _ _ _).mp hn)
      have ho : (wl_keyboard_key_log state.opts wl_keyboard serial time key kstate).out = "" :=
        proxy_log_out_suppressed _ _ _ _ _ h
      simp only [hn, h, if_false, ho]
  · unfold wl_keyboard_key
    by_cases h : should_emit state.opts.filters state.opts.inverse_filters wl_keyboard.cls "key"
    · have hn : (wl_keyboard_key_log state.opts wl_keyboard serial time key kstate).n ≠ 0 :=
        (proxy_log_n_ne_zero _ _ _ _ _).mpr h
      simp [h, hn, habsent, utf8_lookups, key_detail_calls]
    · have hn : ¬ (wl_keyboard_key_log state.opts wl_keyboard serial time key kstate).n ≠ 0 :=
        fun hn => h ((proxy_log_n_ne_zero _ _ _ _ _).mp hn)
      simp only [hn, h, if_false]
      simp [utf8_lookups]

/-! ## Drag action names -/

theorem dnd_actions_str_small (v : Nat) (h : v ≤ 7) :
    dnd_actions_str v = (if v = 0 then "none" else action_bit_names v) ∧
      dnd_actions_str v ≠ "unknown" := by
  interval_cases v <;> decide

theorem dnd_actions_str_large (v : Nat) (h : 7 < v) : dnd_actions_str v = "unknown" := by
  have h3 : WL_DATA_DEVICE_MANAGER_DND_ACTION_COPY ||| WL_DATA_DEVICE_MANAGER_DND_ACTION_MOVE
      = 3 := by decide
  have h5 : WL_DATA_DEVICE_MANAGER_DND_ACTION_COPY ||| WL_DATA_DEVICE_MANAGER_DND_ACTION_ASK
      = 5 := by decide
  have h6 : WL_DATA_DEVICE_MANAGER_DND_ACTION_MOVE ||| WL_DATA_DEVICE_MANAGER_DND_ACTION_ASK
      = 6 := by decide
  have h7 : WL_DATA_DEVICE_MANAGER_DND_ACTION_COPY ||| WL_DATA_DEVICE_MANAGER_DND_ACTION_MOVE |||
      WL_DATA_DEVICE_MANAGER_DND_ACTION_ASK = 7 := by decide
  unfold dnd_actions_str
  rw [h7, h3, h5, h6]
  simp only [WL_DATA_DEVICE_MANAGER_DND_ACTION_NONE, WL_DATA_DEVICE_MANAGER_DND_ACTION_COPY,
    WL_DATA_DEVICE_MANAGER_DND_ACTION_MOVE, WL_DATA_DEVICE_MANAGER_DND_ACTION_ASK]
  have e0 : ¬ v = 0 := by omega
  have e1 : ¬ v = 1 := by omega
  have e2 : ¬ v = 2 := by omega
  have e3 : ¬ v = 3 := by omega
  have e4 : ¬ v = 4 := by omega
  have e5 : ¬ v = 5 := by omega
  have e6 : ¬ v = 6 := by omega
  have e7 : ¬ v = 7 := by omega
  simp only [e0, e1, e2, e3, e4, e5, e6, e7, if_false]

/-- C13: for every drag-action value, `dnd_actions_str` gives `unknown` exactly
when the value is greater than 7; for 0 it gives `none`; and for each value
from 1 to 7 it gives the names of the set bits in the order copy (bit 1), move
(bit 2), ask (bit 4), separated by a comma and a space. -/
theorem dnd_actions_str_names (v : Nat) :
    (dnd_actions_str v = "unknown" ↔ 7 < v) ∧
      dnd_actions_str 0 = "none" ∧
      dnd_actions_str v =
        (if v = 0 then "none" else if v ≤ 7 then action_bit_names v else "unknown") := by
  refine ⟨?_, by decide, ?_⟩
  · constructor
    · intro hu
      by_contra hle
      exact (dnd_actions_str_small v (by omega)).2 hu
    · exact dnd_actions_str_large v
  · by_cases h : v ≤ 7
    · rw [(dnd_actions_str_small v h).1]
      by_cases h0 : v = 0
      · simp [h0]
      · simp [h0, h]
    · have h0 : ¬ v = 0 := by omega
      rw [dnd_actions_str_large v (by omega)]
      simp [h0, h]

theorem key_without_keymap_still_logged_witness :
    (wl_keyboard_key_log (wev_state.init String (String × Nat)).opts sample_keyboard 1 2 30 1).out =
        (if should_emit (wev_state.init String (String × Nat)).opts.filters
            (wev_state.init String (String × Nat)).opts.inverse_filters sample_keyboard.cls
            "key" then
          log_header sample_keyboard "key" "serial: %d; time: %d; key: %d; state: %d (%s)\n" ++
            ("serial: " ++ fmt_d 1 ++ "; time: " ++ fmt_d 2 ++ "; key: " ++ fmt_d 30 ++
              "; state: " ++ fmt_d 1 ++ " (" ++ key_state_str 1 ++ ")\n")
        else "") ∧
      (wl_keyboard_key sample_extern (wev_state.init String (String × Nat)) sample_keyboard
          1 2 30 1).out =
        (if should_emit (wev_state.init String (String × Nat)).opts.filters
            (wev_state.init String (String × Nat)).opts.inverse_filters sample_keyboard.cls
            "key" then
          (wl_keyboard_key_log (wev_state.init String (String × Nat)).opts sample_keyboard
              1 2 30 1).out ++
            key_detail sample_extern none ((30 + 8) % 2 ^ 32)
              (if 1 = WL_KEYBOARD_KEY_STATE_PRESSED then (30 + 8) % 2 ^ 32 else 0)
        else "") ∧
      sym_lookups (wl_keyboard_key sample_extern (wev_state.init String (String × Nat))
          sample_keyboard 1 2 30 1).calls = [(none, (30 + 8) % 2 ^ 32)] ∧
      utf8_lookups (wl_keyboard_key sample_extern (wev_state.init String (String × Nat))
          sample_keyboard 1 2 30 1).calls =
        (if should_emit (wev_state.init String (String × Nat)).opts.filters
            (wev_state.init String (String × Nat)).opts.inverse_filters sample_keyboard.cls
            "key" then
          [(none, if 1 = WL_KEYBOARD_KEY_STATE_PRESSED then (30 + 8) % 2 ^ 32 else 0)]
        else []) :=
  key_without_keymap_still_logged sample_extern (wev_state.init String (String × Nat))
    sample_keyboard 1 2 30 1 rfl

/-! ## Event names passed to `proxy_log` -/

theorem proxy_log_out_ne_empty (opts : wev_options) (proxy : wl_proxy)
    (event fmt body : String) :
    (proxy_log opts proxy event fmt body).out ≠ "" ↔
      should_emit opts.filters opts.inverse_filters proxy.cls event := by
  rw [proxy_log_eq]
  by_cases h : should_emit opts.filters opts.inverse_filters proxy.cls event
  · simp [h, log_header_ne_empty]
  · simp [h]

theorem append_ne_empty_of_left (a b : String) (h : a ≠ "") : a ++ b ≠ "" := by
  intro hab
  apply h
  have hl := congrArg String.length hab
  simp only [String.length_append] at hl
  have h0 : "".length = 0 := by decide
  have ha : a.length = 0 := by omega
  exact String.ext (by
    have : a.data.length = 0 := ha
    rw [List.length_eq_zero] at this
    rw [this])

/-- A handler's text is non-empty exactly when the filters pass `event`, when it is
the text of its `proxy_log` call under `event` followed by text that is empty
when the call returned 0. -/
theorem logged_then_detail (opts : wev_options) (proxy : wl_proxy) (event fmt body : String)
    (rest : String)
    (hrest : (proxy_log opts proxy event fmt body).n = 0 → rest = "") :
    (proxy_log opts proxy event fmt body).out ++ rest ≠ "" ↔
      should_emit opts.filters opts.inverse_filters proxy.cls event := by
  by_cases h : should_emit opts.filters opts.inverse_filters proxy.cls event
  · simp only [h, iff_true]
    exact append_ne_empty_of_left _ _ ((proxy_log_out_ne_empty _ _ _ _ _).mpr h)
  · have hn : (proxy_log opts proxy event fmt body).n = 0 := by
      by_contra hne
      exact h ((proxy_log_n_ne_zero _ _ _ _ _).mp hne)
    rw [hrest hn, proxy_log_out_suppressed _ _ _ _ _ h]
    simp [h]

theorem gated_out (opts : wev_options) (proxy : wl_proxy) (event fmt body detail : String)
    (s1 s2 : wev_state K S) (c1 c2 : List (Call K S)) :
    (if (proxy_log opts proxy event fmt body).n ≠ 0 then
        (⟨s1, (proxy_log opts proxy event fmt body).out ++ detail, c1⟩ : Step K S)
      else ⟨s2, (proxy_log opts proxy event fmt body).out, c2⟩).out ≠ "" ↔
      should_emit opts.filters opts.inverse_filters proxy.cls event := by
  by_cases hn : (proxy_log opts proxy event fmt body).n ≠ 0
  · rw [if_pos hn]
    have h := (proxy_log_n_ne_zero _ _ _ _ _).mp hn
    simp only [h, iff_true]
    exact append_ne_empty_of_left _ _ ((proxy_log_out_ne_empty _ _ _ _ _).mpr h)
  · rw [if_neg hn]
    exact proxy_log_out_ne_empty _ _ _ _ _

theorem keyboard_out_iff_slot (x : Extern K S) (state : wev_state K S) (proxy : wl_proxy)
    (e : keyboard_event) :
    (keyboard_dispatch x state proxy e).out ≠ "" ↔
      should_emit state.opts.filters state.opts.inverse_filters proxy.cls e.slot := by
  cases e with
  | keymap format fd size map_shm =>
    simp only [keyboard_dispatch, wl_keyboard_keymap, keyboard_event.slot]
    cases map_shm with
    | none => exact proxy_log_out_ne_empty _ _ _ _ _
    | some bytes =>
      dsimp only
      split <;> exact proxy_log_out_ne_empty _ _ _ _ _
  | enter serial surface keys => exact gated_out _ _ _ _ _ _ _ _ _ _
  | key serial time key kstate => exact gated_out _ _ _ _ _ _ _ _ _ _
  | modifiers serial d l k group stray => exact gated_out _ _ _ _ _ _ _ _ _ _

theorem data_device_out_iff_slot (x : Extern K S) (state : wev_state K S) (proxy : wl_proxy)
    (e : data_device_event) :
    (data_device_dispatch x state proxy e).out ≠ "" ↔
      should_emit state.opts.filters state.opts.inverse_filters proxy.cls e.slot := by
  cases e with
  | data_offer id => exact proxy_log_out_ne_empty _ _ _ _ _
  | enter serial surface px py id => exact proxy_log_out_ne_empty _ _ _ _ _
  | leave =>
    simp only [data_device_dispatch, wl_data_device_leave, data_device_event.slot]
    cases state.dnd <;> exact proxy_log_out_ne_empty _ _ _ _ _
  | motion serial px py => exact proxy_log_out_ne_empty _ _ _ _ _
  | drop => exact proxy_log_out_ne_empty _ _ _ _ _
  | selection id =>
    cases id <;> exact proxy_log_out_ne_empty _ _ _ _ _

theorem seat_capabilities_out_iff (state : wev_state K S) (proxy : wl_proxy)
    (capabilities : Nat) :
    (wl_seat_capabilities state proxy capabilities).out ≠ "" ↔
      should_emit state.opts.filters state.opts.inverse_filters proxy.cls "capabilities" := by
  unfold wl_seat_capabilities
  simp only [String.append_assoc]
  apply logged_then_detail
  intro hn
  simp only [hn, ne_eq, not_true_eq_false, and_false, if_false]
  split_ifs <;> rfl

/-- Every handler of the six input listener tables other than
`wl_pointer_axis_discrete` and `wl_touch_orientation` writes its event exactly
when the filters pass the name of the slot it is installed in. -/
theorem handle_out_iff_slot (x : Extern K S) (state : wev_state K S) (proxy : wl_proxy)
    (e : wev_event) (hin : e.is_input = true)
    (hd : ∀ axis discrete, e ≠ .pointer_axis_discrete axis discrete)
    (ho : ∀ id orientation, e ≠ .touch_orientation id orientation) :
    (handle x state proxy e).out ≠ "" ↔
      should_emit state.opts.filters state.opts.inverse_filters proxy.cls e.slot := by
  cases e with
  | pointer_enter serial surface sx sy => exact proxy_log_out_ne_empty _ _ _ _ _
  | pointer_leave serial surface => exact proxy_log_out_ne_empty _ _ _ _ _
  | pointer_motion time sx sy => exact proxy_log_out_ne_empty _ _ _ _ _
  | pointer_button serial time button bstate => exact proxy_log_out_ne_empty _ _ _ _ _
  | pointer_axis time axis value => exact proxy_log_out_ne_empty _ _ _ _ _
  | pointer_frame => exact proxy_log_out_ne_empty _ _ _ _ _
  | pointer_axis_source axis_source => exact proxy_log_out_ne_empty _ _ _ _ _
  | pointer_axis_stop time axis => exact proxy_log_out_ne_empty _ _ _ _ _
  | pointer_axis_discrete axis discrete => exact absurd rfl (hd axis discrete)
  | keyboard e => exact keyboard_out_iff_slot x state proxy e
  | keyboard_leave serial surface => exact proxy_log_out_ne_empty _ _ _ _ _
  | keyboard_repeat_info rate delay => exact proxy_log_out_ne_empty _ _ _ _ _
  | touch_down serial time surface id px py => exact proxy_log_out_ne_empty _ _ _ _ _
  | touch_up serial time id => exact proxy_log_out_ne_empty _ _ _ _ _
  | touch_motion time id px py => exact proxy_log_out_ne_empty _ _ _ _ _
  | touch_frame => exact proxy_log_out_ne_empty _ _ _ _ _
  | touch_cancel => exact proxy_log_out_ne_empty _ _ _ _ _
  | touch_shape id major minor => exact proxy_log_out_ne_empty _ _ _ _ _
  | touch_orientation id orientation => exact absurd rfl (ho id orientation)
  | seat_capabilities capabilities => exact seat_capabilities_out_iff state proxy capabilities
  | seat_name name => exact proxy_log_out_ne_empty _ _ _ _ _
  | data_offer_offer mime_type => exact proxy_log_out_ne_empty _ _ _ _ _
  | data_offer_source_actions actions => exact proxy_log_out_ne_empty _ _ _ _ _
  | data_offer_action dnd_action => exact proxy_log_out_ne_empty _ _ _ _ _
  | data_device e => exact data_device_out_iff_slot x state proxy e
  | toplevel_configure width height states => exact absurd hin (by simp [wev_event.is_input])
  | toplevel_close => exact absurd hin (by simp [wev_event.is_input])
  | surface_configure serial => exact absurd hin (by simp [wev_event.is_input])
  | wm_base_ping serial => exact absurd hin (by simp [wev_event.is_input])
  | buffer_release => exact absurd hin (by simp [wev_event.is_input])
  | registry_global name interface version bound =>
    exact absurd hin (by simp [wev_event.is_input])
  | registry_global_remove name => exact absurd hin (by simp [wev_event.is_input])

/-- C14, what the code does: `wl_pointer_axis_discrete` writes its event exactly
when the filters pass the name `axis_stop`, and `wl_touch_orientation` exactly
when they pass the name `shape`, the names of sibling slots.  So with the one
include rule `wl_pointer:axis_discrete` an `axis_discrete` event is suppressed,
with the one include rule `wl_touch:orientation` an `orientation` event is
suppressed, and without rules the two events are written under the names
`axis_stop` and `shape`. -/
theorem axis_discrete_and_orientation_use_sibling_names (x : Extern K S)
    (state : wev_state K S) (proxy : wl_proxy) (axis : Nat) (discrete id orientation : Int) :
    ((handle x state proxy (.pointer_axis_discrete axis discrete)).out ≠ "" ↔
        should_emit state.opts.filters state.opts.inverse_filters proxy.cls "axis_stop") ∧
      ((handle x state proxy (.touch_orientation id orientation)).out ≠ "" ↔
        should_emit state.opts.filters state.opts.inverse_filters proxy.cls "shape") ∧
      (wev_event.pointer_axis_discrete 0 1).slot = "axis_discrete" ∧
      (wev_event.touch_orientation 0 256).slot = "orientation" ∧
      (handle sample_extern axis_discrete_only_state sample_pointer
        (.pointer_axis_discrete 0 1)).out = "" ∧
      (handle sample_extern orientation_only_state sample_touch
        (.touch_orientation 0 256)).out = "" ∧
      (handle sample_extern keyed_state sample_pointer (.pointer_axis_discrete 0 1)).out =
        "[12:      wl_pointer] axis_stop: axis: 0 (vertical), discrete: 1\n" ∧
      (handle sample_extern keyed_state sample_touch (.touch_orientation 0 256)).out =
        "[13:        wl_touch] shape: id: 0; orientation: 1\n" := by
  refine ⟨proxy_log_out_ne_empty _ _ _ _ _, proxy_log_out_ne_empty _ _ _ _ _, rfl, rfl,
    by decide, by decide, by decide, by decide⟩

/-! ## Filters and the tracked state -/

theorem transport_of_not_query (calls : List (Call K S)) :
    calls.filter is_transport = (calls.filter (fun c => !is_query c)).filter is_transport := by
  rw [List.filter_filter]
  congr 1
  funext c
  cases c <;> rfl

theorem key_detail_calls_queries (x : Extern K S) (st : Option S) (a b : Nat) :
    (key_detail_calls x st a b).filter (fun c => !is_query c) = [] := by
  simp [key_detail_calls, is_query]

theorem enter_detail_calls_queries (x : Extern K S) (st : Option S) (keys : List Nat) :
    (enter_detail_calls x st keys).filter (fun c => !is_query c) = [] := by
  induction keys with
  | nil => simp [enter_detail_calls]
  | cons k ks ih =>
    simp only [enter_detail_calls, List.map_cons, List.flatten_cons, List.filter_append] at ih ⊢
    rw [ih, key_detail_calls_queries]
    rfl

theorem print_modifiers_calls_queries (state : wev_state K S) (mods : Nat) :
    (print_modifiers_calls state mods).filter (fun c => !is_query c) = [] := by
  unfold print_modifiers_calls
  generalize modifier_bits mods = bits
  induction bits with
  | nil => rfl
  | cons b bs ih =>
    simp only [List.map_cons, List.filter_cons, is_query, Bool.not_true] at ih ⊢
    exact ih

theorem key_effects (x : Extern K S) (state : wev_state K S) (wl_keyboard : wl_proxy)
    (serial time key kstate : Nat) :
    (wl_keyboard_key x state wl_keyboard serial time key kstate).calls.filter
      (fun c => !is_query c) = [] := by
  unfold wl_keyboard_key
  by_cases hn : (wl_keyboard_key_log state.opts wl_keyboard serial time key kstate).n ≠ 0
  · simp only [hn, if_true, ne_eq, not_false_eq_true]
    exact key_detail_calls_queries _ _ _ _
  · simp only [hn, if_false]
    simp [is_query]

theorem enter_effects (x : Extern K S) (state : wev_state K S) (wl_keyboard : wl_proxy)
    (serial : Nat) (surface : wl_proxy) (keys : List Nat) :
    (wl_keyboard_enter x state wl_keyboard serial surface keys).calls.filter
      (fun c => !is_query c) = [] := by
  unfold wl_keyboard_enter
  by_cases hn : (wl_keyboard_enter_log state.opts wl_keyboard serial surface).n ≠ 0
  · simp only [hn, if_true, ne_eq, not_false_eq_true]
    exact enter_detail_calls_queries _ _ _
  · simp only [hn, if_false]
    rfl

theorem modifiers_effects (x : Extern K S) (state : wev_state K S) (wl_keyboard : wl_proxy)
    (serial d l k group stray : Nat) :
    (wl_keyboard_modifiers x state wl_keyboard serial d l k group stray).calls.filter
      (fun c => !is_query c) = [Call.xkb_state_update_mask state.xkb_state d l k 0 0 group] := by
  unfold wl_keyboard_modifiers
  by_cases hn : (wl_keyboard_modifiers_log state.opts wl_keyboard group stray).n ≠ 0
  · simp only [hn, if_true, ne_eq, not_false_eq_true, List.filter_append,
      print_modifiers_calls_queries, List.nil_append]
    simp [is_query]
  · simp only [hn, if_false]
    simp [is_query]

theorem keymap_effects (x : Extern K S) (state : wev_state K S) (wl_keyboard : wl_proxy)
    (format : Nat) (fd : Int) (size : Nat) (map_shm : Option String)
    (f i : List wev_filter) :
    (wl_keyboard_keymap x (with_filters state f i) wl_keyboard format fd size map_shm).state =
        with_filters (wl_keyboard_keymap x state wl_keyboard format fd size map_shm).state f i ∧
      (wl_keyboard_keymap x (with_filters state f i) wl_keyboard format fd size map_shm).calls =
        (wl_keyboard_keymap x state wl_keyboard format fd size map_shm).calls := by
  unfold wl_keyboard_keymap
  cases map_shm with
  | none => exact ⟨rfl, rfl⟩
  | some bytes =>
    dsimp only
    split <;> exact ⟨rfl, rfl⟩

theorem toplevel_configure_state (state : wev_state K S) (xdg_toplevel : wl_proxy)
    (width height : Int) (states : List Nat) :
    (xdg_toplevel_configure state xdg_toplevel width height states).state =
        (if width = 0 ∨ height = 0 then { state with width := 640, height := 480 }
          else { state with width := width, height := height }) ∧
      (xdg_toplevel_configure state xdg_toplevel width height states).calls = [] := by
  unfold xdg_toplevel_configure
  dsimp only
  split_ifs <;> exact ⟨rfl, rfl⟩

theorem toplevel_configure_effects (state : wev_state K S) (xdg_toplevel : wl_proxy)
    (width height : Int) (states : List Nat) (f i : List wev_filter) :
    (xdg_toplevel_configure (with_filters state f i) xdg_toplevel width height states).state =
        with_filters (xdg_toplevel_configure state xdg_toplevel width height states).state f i ∧
      (xdg_toplevel_configure (with_filters state f i) xdg_toplevel width height states).calls =
        (xdg_toplevel_configure state xdg_toplevel width height states).calls := by
  rw [(toplevel_configure_state _ _ _ _ _).1, (toplevel_configure_state _ _ _ _ _).2,
    (toplevel_configure_state _ _ _ _ _).1, (toplevel_configure_state _ _ _ _ _).2]
  refine ⟨?_, rfl⟩
  split_ifs <;> rfl

theorem seat_capabilities_effects (state : wev_state K S) (wl_seat : wl_proxy)
    (capabilities : Nat) (f i : List wev_filter) :
    (wl_seat_capabilities (with_filters state f i) wl_seat capabilities).state =
        with_filters (wl_seat_capabilities state wl_seat capabilities).state f i ∧
      (wl_seat_capabilities (with_filters state f i) wl_seat capabilities).calls =
        (wl_seat_capabilities state wl_seat capabilities).calls := by
  unfold wl_seat_capabilities
  refine ⟨rfl, ?_⟩
  dsimp only
  split_ifs <;> rfl

theorem keyboard_with_filters (x : Extern K S) (state : wev_state K S) (proxy : wl_proxy)
    (e : keyboard_event) (f i : List wev_filter) :
    (keyboard_dispatch x (with_filters state f i) proxy e).state =
        with_filters (keyboard_dispatch x state proxy e).state f i ∧
      (keyboard_dispatch x (with_filters state f i) proxy e).calls.filter
          (fun c => !is_query c) =
        (keyboard_dispatch x state proxy e).calls.filter (fun c => !is_query c) := by
  cases e with
  | keymap format fd size map_shm =>
    simp only [keyboard_dispatch]
    rw [(keymap_effects x state proxy format fd size map_shm f i).1,
      (keymap_effects x state proxy format fd size map_shm f i).2]
    exact ⟨rfl, rfl⟩
  | enter serial surface keys =>
    simp only [keyboard_dispatch]
    rw [enter_state, enter_state, enter_effects, enter_effects]
    exact ⟨rfl, rfl⟩
  | key serial time key kstate =>
    simp only [keyboard_dispatch]
    rw [key_state, key_state, key_effects, key_effects]
    exact ⟨rfl, rfl⟩
  | modifiers serial d l k group stray =>
    simp only [keyboard_dispatch]
    rw [modifiers_state, modifiers_state, modifiers_effects, modifiers_effects]
    exact ⟨rfl, rfl⟩

theorem data_device_with_filters (x : Extern K S) (state : wev_state K S) (proxy : wl_proxy)
    (e : data_device_event) (f i : List wev_filter) :
    (data_device_dispatch x (with_filters state f i) proxy e).state =
        with_filters (data_device_dispatch x state proxy e).state f i ∧
      (data_device_dispatch x (with_filters state f i) proxy e).calls =
        (data_device_dispatch x state proxy e).calls := by
  cases e with
  | data_offer id => exact ⟨rfl, rfl⟩
  | enter serial surface px py id => exact ⟨rfl, rfl⟩
  | leave =>
    rcases state with ⟨opts, closed, compositor, seat, shm, wm_base, manager, width, height,
      xkb_state, xkb_keymap, selection, dnd, surface⟩
    cases dnd <;> exact ⟨rfl, rfl⟩
  | motion serial px py => exact ⟨rfl, rfl⟩
  | drop => exact ⟨rfl, rfl⟩
  | selection id =>
    rcases state with ⟨opts, closed, compositor, seat, shm, wm_base, manager, width, height,
      xkb_state, xkb_keymap, selection, dnd, surface⟩
    cases selection <;> exact ⟨rfl, rfl⟩

/-- Handling an event with other filter lists gives the same state, up to the filter
lists themselves, and the same calls apart from the read-only queries made to
print detail lines. -/
theorem handle_with_filters (x : Extern K S) (state : wev_state K S) (proxy : wl_proxy)
    (e : wev_event) (f i : List wev_filter) :
    (handle x (with_filters state f i) proxy e).state =
        with_filters (handle x state proxy e).state f i ∧
      (handle x (with_filters state f i) proxy e).calls.filter (fun c => !is_query c) =
        (handle x state proxy e).calls.filter (fun c => !is_query c) := by
  cases e with
  | pointer_enter serial surface sx sy => exact ⟨rfl, rfl⟩
  | pointer_leave serial surface => exact ⟨rfl, rfl⟩
  | pointer_motion time sx sy => exact ⟨rfl, rfl⟩
  | pointer_button serial time button bstate => exact ⟨rfl, rfl⟩
  | pointer_axis time axis value => exact ⟨rfl, rfl⟩
  | pointer_frame => exact ⟨rfl, rfl⟩
  | pointer_axis_source axis_source => exact ⟨rfl, rfl⟩
  | pointer_axis_stop time axis => exact ⟨rfl, rfl⟩
  | pointer_axis_discrete axis discrete => exact ⟨rfl, rfl⟩
  | keyboard e => exact keyboard_with_filters x state proxy e f i
  | keyboard_leave serial surface => exact ⟨rfl, rfl⟩
  | keyboard_repeat_info rate delay => exact ⟨rfl, rfl⟩
  | touch_down serial time surface id px py => exact ⟨rfl, rfl⟩
  | touch_up serial time id => exact ⟨rfl, rfl⟩
  | touch_motion time id px py => exact ⟨rfl, rfl⟩
  | touch_frame => exact ⟨rfl, rfl⟩
  | touch_cancel => exact ⟨rfl, rfl⟩
  | touch_shape id major minor => exact ⟨rfl, rfl⟩
  | touch_orientation id orientation => exact ⟨rfl, rfl⟩
  | seat_capabilities capabilities =>
    simp only [handle]
    rw [(seat_capabilities_effects state proxy capabilities f i).1,
      (seat_capabilities_effects state proxy capabilities f i).2]
    exact ⟨rfl, rfl⟩
  | seat_name name => exact ⟨rfl, rfl⟩
  | data_offer_offer mime_type => exact ⟨rfl, rfl⟩
  | data_offer_source_actions actions => exact ⟨rfl, rfl⟩
  | data_offer_action dnd_action => exact ⟨rfl, rfl⟩
  | data_device e =>
    simp only [handle]
    rw [(data_device_with_filters x state proxy e f i).1,
      (data_device_with_filters x state proxy e f i).2]
    exact ⟨rfl, rfl⟩
  | toplevel_configure width height states =>
    simp only [handle]
    rw [(toplevel_configure_effects state proxy width height states f i).1,
      (toplevel_configure_effects state proxy width height states f i).2]
    exact ⟨rfl, rfl⟩
  | toplevel_close => exact ⟨rfl, rfl⟩
  | surface_configure serial => exact ⟨rfl, rfl⟩
  | wm_base_ping serial => exact ⟨rfl, rfl⟩
  | buffer_release => exact ⟨rfl, rfl⟩
  | registry_global name interface version bound =>
    refine ⟨?_, rfl⟩
    simp only [handle, registry_global]
    split_ifs <;> rfl
  | registry_global_remove name => exact ⟨rfl, rfl⟩

/-- C15: for every event of every listener table and every two filter
configurations, handling the event from the same state gives the same tracked
state (keymap, live state with its modifier masks, selection and drag slots,
width, height, closed flag), indeed the same state apart from the filter lists,
and the same sequence of requests sent back to the transport; the only calls
that depend on the filters are the read-only keymap queries made to print
detail lines. -/
theorem filters_affect_output_only (x : Extern K S) (state : wev_state K S) (proxy : wl_proxy)
    (e : wev_event) (f1 i1 f2 i2 : List wev_filter) :
    tracked (handle x (with_filters state f1 i1) proxy e).state =
        tracked (handle x (with_filters state f2 i2) proxy e).state ∧
      (handle x (with_filters state f1 i1) proxy e).calls.filter is_transport =
        (handle x (with_filters state f2 i2) proxy e).calls.filter is_transport ∧
      (handle x (with_filters state f1 i1) proxy e).calls.filter (fun c => !is_query c) =
        (handle x (with_filters state f2 i2) proxy e).calls.filter (fun c => !is_query c) ∧
      (handle x (with_filters state f1 i1) proxy e).state =
        with_filters (handle x (with_filters state f2 i2) proxy e).state f1 i1 := by
  obtain ⟨hs1, hc1⟩ := handle_with_filters x state proxy e f1 i1
  obtain ⟨hs2, hc2⟩ := handle_with_filters x state proxy e f2 i2
  refine ⟨?_, ?_, ?_, ?_⟩
  · rw [hs1, hs2]; rfl
  · rw [transport_of_not_query, hc1, ← hc2, ← transport_of_not_query]
  · rw [hc1, hc2]
  · rw [hs1, hs2]; rfl

end Proofs

end Wev
